import Mathlib

/-!
Shallow embedding of the ISAAC pseudorandom number generator family
(`src/prng/isaac.rs`) and of the error taxonomy (`rand_core/src/lib.rs`).

Machine words are represented as `Nat` with explicit reduction modulo
`2^32` / `2^64` wherever the source relies on wrapping arithmetic
(`core::num::Wrapping`).  The fixed-size arrays `rsl` and `mem` (256 words
each, `RAND_SIZE_LEN = 8`) are represented as `List Nat`; reads are
`List.getD` and writes are `List.set`, mirroring indexed loads and stores.
Fallible operations return `Except CryptoError`.
-/

namespace Rand

/-- Wrapping 32-bit addition. -/
def add32 (x y : Nat) : Nat := (x + y) % 4294967296

/-- Truncating 32-bit left shift. -/
def shl32 (x n : Nat) : Nat := (x <<< n) % 4294967296

/-- Wrapping 64-bit addition. -/
def add64 (x y : Nat) : Nat := (x + y) % 18446744073709551616

/-- Wrapping 64-bit subtraction. -/
def sub64 (x y : Nat) : Nat :=
  (x + (18446744073709551616 - y % 18446744073709551616)) % 18446744073709551616

/-- Truncating 64-bit left shift. -/
def shl64 (x n : Nat) : Nat := (x <<< n) % 18446744073709551616

/-- Bitwise complement on 64 bits (the `!mix` of `rngstepp!`/`rngstepn!`). -/
def not64 (x : Nat) : Nat := x ^^^ 18446744073709551615

/-- The eight mixing variables `a`..`h` of ISAAC initialisation. -/
structure Vars where
  a : Nat
  b : Nat
  c : Nat
  d : Nat
  e : Nat
  f : Nat
  g : Nat
  h : Nat
deriving DecidableEq

/-- The eight mixing variables as a list, in pool-block order. -/
def Vars.toList (v : Vars) : List Nat := [v.a, v.b, v.c, v.d, v.e, v.f, v.g, v.h]

/-- The `mix!` macro of `IsaacRng::init` (32-bit), as a sequence of updates. -/
def mix32 (v : Vars) : Vars :=
  let a := v.a; let b := v.b; let c := v.c; let d := v.d
  let e := v.e; let f := v.f; let g := v.g; let h := v.h
  let a := a ^^^ (shl32 b 11); let d := add32 d a; let b := add32 b c
  let b := b ^^^ (c >>> 2);    let e := add32 e b; let c := add32 c d
  let c := c ^^^ (shl32 d 8);  let f := add32 f c; let d := add32 d e
  let d := d ^^^ (e >>> 16);   let g := add32 g d; let e := add32 e f
  let e := e ^^^ (shl32 f 10); let h := add32 h e; let f := add32 f g
  let f := f ^^^ (g >>> 4);    let a := add32 a f; let g := add32 g h
  let g := g ^^^ (shl32 h 8);  let b := add32 b g; let h := add32 h a
  let h := h ^^^ (a >>> 9);    let c := add32 c h; let a := add32 a b
  ⟨a, b, c, d, e, f, g, h⟩

/-- The `mix!` macro of `Isaac64Rng::init` (64-bit). -/
def mix64 (v : Vars) : Vars :=
  let a := v.a; let b := v.b; let c := v.c; let d := v.d
  let e := v.e; let f := v.f; let g := v.g; let h := v.h
  let a := sub64 a e; let f := f ^^^ (h >>> 9);    let h := add64 h a
  let b := sub64 b f; let g := g ^^^ (shl64 a 9);  let a := add64 a b
  let c := sub64 c g; let h := h ^^^ (b >>> 23);   let b := add64 b c
  let d := sub64 d h; let a := a ^^^ (shl64 c 15); let c := add64 c d
  let e := sub64 e a; let b := b ^^^ (d >>> 14);   let d := add64 d e
  let f := sub64 f b; let c := c ^^^ (shl64 e 20); let e := add64 e f
  let g := sub64 g c; let d := d ^^^ (f >>> 17);   let f := add64 f g
  let h := sub64 h d; let e := e ^^^ (shl64 g 14); let g := add64 g h
  ⟨a, b, c, d, e, f, g, h⟩

/-- Add the eight array entries of the block starting at `i` into the mixing
variables (the additive front of the `memloop!` macro); `addf` is the
width-specific wrapping addition. -/
def absorb (addf : Nat → Nat → Nat) (v : Vars) (arr : List Nat) (i : Nat) : Vars :=
  ⟨addf v.a (arr.getD i 0), addf v.b (arr.getD (i+1) 0),
   addf v.c (arr.getD (i+2) 0), addf v.d (arr.getD (i+3) 0),
   addf v.e (arr.getD (i+4) 0), addf v.f (arr.getD (i+5) 0),
   addf v.g (arr.getD (i+6) 0), addf v.h (arr.getD (i+7) 0)⟩

/-- Write the eight mixing variables into the pool block starting at `i`
(the eight stores closing one `memloop!` iteration). -/
def writeBlock (mem : List Nat) (i : Nat) (v : Vars) : List Nat :=
  (((((((mem.set i v.a).set (i+1) v.b).set (i+2) v.c).set (i+3) v.d).set
      (i+4) v.e).set (i+5) v.f).set (i+6) v.g).set (i+7) v.h

/-- The `memloop!` macro applied to a fixed source array (the first,
seed-absorbing pass): `n` blocks starting at index `i`, stepping by 8. -/
def memloopArr (addf : Nat → Nat → Nat) (mixf : Vars → Vars) (arr : List Nat) :
    Nat → Nat → Vars → List Nat → Vars × List Nat
  | 0, _, v, mem => (v, mem)
  | n+1, i, v, mem =>
      let v' := mixf (absorb addf v arr i)
      memloopArr addf mixf arr n (i+8) v' (writeBlock mem i v')

/-- The `memloop!` macro applied to the pool itself (the second pass, which
reads the block it is about to overwrite). -/
def memloopSelf (addf : Nat → Nat → Nat) (mixf : Vars → Vars) :
    Nat → Nat → Vars → List Nat → Vars × List Nat
  | 0, _, v, mem => (v, mem)
  | n+1, i, v, mem =>
      let v' := mixf (absorb addf v mem i)
      memloopSelf addf mixf n (i+8) v' (writeBlock mem i v')

/-- The unseeded pool fill of `init` when `use_rsl` is false: one mixing round
per block, no external input. -/
def memloopPlain (mixf : Vars → Vars) :
    Nat → Nat → Vars → List Nat → Vars × List Nat
  | 0, _, v, mem => (v, mem)
  | n+1, i, v, mem =>
      let v' := mixf v
      memloopPlain mixf n (i+8) v' (writeBlock mem i v')

/-- State of the 32-bit ISAAC generator (`struct IsaacRng`). -/
structure IsaacRng where
  cnt : Nat
  rsl : List Nat
  mem : List Nat
  a : Nat
  b : Nat
  c : Nat
deriving DecidableEq

/-- The all-zero starting value `EMPTY`. -/
def EMPTY : IsaacRng :=
  ⟨0, List.replicate 256 0, List.replicate 256 0, 0, 0, 0⟩

/-- Indirect pool fetch of the 32-bit round: the `ind!` macro,
`mem[(x >> 2) & (RAND_SIZE_USIZE - 1)]`. -/
def ind32 (mem : List Nat) (x : Nat) : Nat := mem.getD ((x >>> 2) &&& 255) 0

/-- The mutable state threaded through one permutation round: the accumulators
`a` and `b` plus the `mem` and `rsl` arrays. -/
structure RoundSt where
  a : Nat
  b : Nat
  mem : List Nat
  rsl : List Nat
deriving DecidableEq

/-- One `rngstepp!`/`rngstepn!` step of the 32-bit round; `left` selects the
shift direction of the mixing value. -/
def rngstep32 (left : Bool) (shift mrOff m2Off base : Nat) (st : RoundSt) : RoundSt :=
  let mix := if left then shl32 st.a shift else st.a >>> shift
  let x := st.mem.getD (base + mrOff) 0
  let a := add32 (st.a ^^^ mix) (st.mem.getD (base + m2Off) 0)
  let y := add32 (add32 (ind32 st.mem x) a) st.b
  let mem := st.mem.set (base + mrOff) y
  let b := add32 (ind32 mem (y >>> 8)) x
  let rsl := st.rsl.set (base + mrOff) b
  ⟨a, b, mem, rsl⟩

/-- One group of four steps of the 32-bit round with the fixed shift schedule
(left 13, right 6, left 2, right 16). -/
def rngGroup32 (mrOff m2Off base : Nat) (st : RoundSt) : RoundSt :=
  rngstep32 false 16 mrOff m2Off (base+3)
    (rngstep32 true 2 mrOff m2Off (base+2)
      (rngstep32 false 6 mrOff m2Off (base+1)
        (rngstep32 true 13 mrOff m2Off (base+0) st)))

/-- One half-pass of the 32-bit round: `n` groups of four entries starting at
`base`, with the given primary and secondary offsets. -/
def halfPass32 (mrOff m2Off : Nat) : Nat → Nat → RoundSt → RoundSt
  | 0, _, st => st
  | n+1, base, st => halfPass32 mrOff m2Off n (base+4) (rngGroup32 mrOff m2Off base st)

/-- Refill the output buffer: `IsaacRng::isaac`.  Two half-passes over the
pool with swapped offsets, then the accumulators are persisted and `cnt` is
reset to `RAND_SIZE = 256`. -/
def IsaacRng.isaac (s : IsaacRng) : IsaacRng :=
  let c := add32 s.c 1
  let b := add32 s.b c
  let st : RoundSt := ⟨s.a, b, s.mem, s.rsl⟩
  let st := halfPass32 0 128 32 0 st
  let st := halfPass32 128 0 32 0 st
  ⟨256, st.rsl, st.mem, st.a, st.b, c⟩

/-- Golden-ratio start value `0x9e3779b9` for the eight 32-bit mixing
variables. -/
def golden32 : Vars :=
  ⟨0x9e3779b9, 0x9e3779b9, 0x9e3779b9, 0x9e3779b9,
   0x9e3779b9, 0x9e3779b9, 0x9e3779b9, 0x9e3779b9⟩

/-- `IsaacRng::init`: scramble the golden-ratio constant with four mixing
rounds, fill the pool (absorbing `rsl` and then the pool itself when
`useRsl` is set), and run one permutation round. -/
def IsaacRng.init (useRsl : Bool) (s : IsaacRng) : IsaacRng :=
  let v := mix32 (mix32 (mix32 (mix32 golden32)))
  let mem :=
    if useRsl then
      let p1 := memloopArr add32 mix32 s.rsl 32 0 v s.mem
      (memloopSelf add32 mix32 32 0 p1.1 p1.2).2
    else
      (memloopPlain mix32 32 0 v s.mem).2
  IsaacRng.isaac { s with mem := mem }

/-- The error type of the crate-root `Rng` trait.  Its definition is not among
the provided sources; the generation path never constructs a value of it. -/
inductive CryptoError where
  | mk
deriving DecidableEq

/-- `IsaacRng::next_u32`: refill when the consumed-count is zero, decrement
it, and return `rsl[(cnt % RAND_SIZE) as usize]`. -/
def IsaacRng.next_u32 (s : IsaacRng) : (Except CryptoError Nat) × IsaacRng :=
  let s := if s.cnt = 0 then s.isaac else s
  let s := { s with cnt := s.cnt - 1 }
  (Except.ok (s.rsl.getD (s.cnt % 256) 0), s)

/-- Little-endian byte encoding of a 32-bit word (`to_le` + `transmute` to
`[u8; 4]` on the reference little-endian layout). -/
def u32ToLeBytes (x : Nat) : List Nat :=
  [x % 256, (x >>> 8) % 256, (x >>> 16) % 256, (x >>> 24) % 256]

/-- `IsaacRng::fill_bytes`, with the destination buffer abstracted by its
length: full 4-byte chunks from successive `next_u32` words, then the
low-order bytes of one extra word for a partial trailing chunk. -/
def IsaacRng.fill_bytes : Nat → IsaacRng → Except CryptoError (List Nat × IsaacRng)
  | 0, s => Except.ok ([], s)
  | n+4, s =>
      match s.next_u32 with
      | (Except.ok x, s') =>
          match IsaacRng.fill_bytes n s' with
          | Except.ok p => Except.ok (u32ToLeBytes x ++ p.1, p.2)
          | Except.error e => Except.error e
      | (Except.error e, _) => Except.error e
  | n, s =>
      match s.next_u32 with
      | (Except.ok x, s') => Except.ok ((u32ToLeBytes x).take n, s')
      | (Except.error e, _) => Except.error e

/-- Modelled from the spec: the crate-root `Rng` trait declaration, with its
default derivation of `next_u64` for a generator that implements `next_u32`,
is not among the provided sources.  Spec section 4.1 fixes the derivation as
two `next_u32` calls, low word first: `u64 = low ||| (high <<< 32)`. -/
def IsaacRng.next_u64 (s : IsaacRng) : (Except CryptoError Nat) × IsaacRng :=
  match s.next_u32 with
  | (Except.ok lo, s1) =>
      match s1.next_u32 with
      | (Except.ok hi, s2) => (Except.ok (lo ||| (hi <<< 32)), s2)
      | (Except.error e, s2) => (Except.error e, s2)
  | (Except.error e, s1) => (Except.error e, s1)

/-- Modelled from the spec: the `try_fill` method of the trait is not among
the provided sources.  Spec section 4.1: for an algorithmic generator it
fills the destination through the generator's byte-fill path and always
succeeds. -/
def IsaacRng.try_fill (len : Nat) (s : IsaacRng) :
    Except CryptoError (List Nat × IsaacRng) :=
  IsaacRng.fill_bytes len s

/-- Decode the `j`-th 32-bit word of a little-endian byte buffer.  The source
fills `rsl` by viewing it as a raw byte buffer; the spec (section 9) fixes the
decode as an explicit little-endian chunk decode. -/
def leWord32 (bytes : List Nat) (j : Nat) : Nat :=
  bytes.getD (4*j) 0 ||| (bytes.getD (4*j+1) 0 <<< 8) |||
  (bytes.getD (4*j+2) 0 <<< 16) ||| (bytes.getD (4*j+3) 0 <<< 24)

/-- `FromRng::from_rng` for `IsaacRng`: draw `RAND_SIZE_USIZE * 4 = 1024`
bytes from the upstream source into `rsl`, propagating any upstream error
unchanged, zero `cnt`/`a`/`b`/`c`, and run the seeded initialisation.  The
upstream source is abstracted as a byte-fill function from the requested
length. -/
def IsaacRng.from_rng (fill : Nat → Except CryptoError (List Nat)) :
    Except CryptoError IsaacRng :=
  match fill 1024 with
  | Except.error e => Except.error e
  | Except.ok bytes =>
      let rsl := (List.range 256).map (fun j => leWord32 bytes j)
      Except.ok (IsaacRng.init true { EMPTY with rsl := rsl, cnt := 0, a := 0, b := 0, c := 0 })

/-- `SeedableRng::reseed` for `IsaacRng`: copy the seed into `rsl`, extended
with zeroes (and silently truncated at the buffer length), zero
`cnt`/`a`/`b`/`c`, and rerun the seeded initialisation. -/
def IsaacRng.reseed (s : IsaacRng) (seed : List Nat) : IsaacRng :=
  let rsl := (List.range s.rsl.length).map (fun j => seed.getD j 0)
  IsaacRng.init true { s with rsl := rsl, cnt := 0, a := 0, b := 0, c := 0 }

/-- `SeedableRng::from_seed` for `IsaacRng`: reseed the `EMPTY` value. -/
def IsaacRng.from_seed (seed : List Nat) : IsaacRng := EMPTY.reseed seed

/-- Successive `next_u32` outputs together with the final state. -/
def IsaacRng.nextWords : Nat → IsaacRng → List Nat × IsaacRng
  | 0, s => ([], s)
  | k+1, s =>
      match s.next_u32 with
      | (Except.ok x, s') =>
          let p := IsaacRng.nextWords k s'
          (x :: p.1, p.2)
      | (Except.error _, s') => ([], s')

/-- State of the 64-bit ISAAC generator (`struct Isaac64Rng`). -/
structure Isaac64Rng where
  cnt : Nat
  rsl : List Nat
  mem : List Nat
  a : Nat
  b : Nat
  c : Nat
deriving DecidableEq

/-- The all-zero starting value `EMPTY_64`. -/
def EMPTY_64 : Isaac64Rng :=
  ⟨0, List.replicate 256 0, List.replicate 256 0, 0, 0, 0⟩

/-- Indirect pool fetch of the 64-bit round:
`mem[(x >> 3) & (RAND_SIZE_64 - 1)]`. -/
def ind64 (mem : List Nat) (x : Nat) : Nat := mem.getD ((x >>> 3) &&& 255) 0

/-- One `rngstepp!`/`rngstepn!` step of the 64-bit round; `left` selects the
shift direction, and `cm` is the extra complement applied when `j = 0`. -/
def rngstep64 (left cm : Bool) (shift mrOff m2Off base : Nat) (st : RoundSt) : RoundSt :=
  let mix := if left then st.a ^^^ shl64 st.a shift else st.a ^^^ (st.a >>> shift)
  let mix := if cm then not64 mix else mix
  let x := st.mem.getD (base + mrOff) 0
  let a := add64 mix (st.mem.getD (base + m2Off) 0)
  let y := add64 (add64 (ind64 st.mem x) a) st.b
  let mem := st.mem.set (base + mrOff) y
  let b := add64 (ind64 mem (y >>> 8)) x
  let rsl := st.rsl.set (base + mrOff) b
  ⟨a, b, mem, rsl⟩

/-- One group of four steps of the 64-bit round with the fixed shift schedule
(left 21, right 5, left 12, right 33), complementing on the first sub-step. -/
def rngGroup64 (mrOff m2Off base : Nat) (st : RoundSt) : RoundSt :=
  rngstep64 false false 33 mrOff m2Off (base+3)
    (rngstep64 true false 12 mrOff m2Off (base+2)
      (rngstep64 false false 5 mrOff m2Off (base+1)
        (rngstep64 true true 21 mrOff m2Off (base+0) st)))

/-- One half-pass of the 64-bit round. -/
def halfPass64 (mrOff m2Off : Nat) : Nat → Nat → RoundSt → RoundSt
  | 0, _, st => st
  | n+1, base, st => halfPass64 mrOff m2Off n (base+4) (rngGroup64 mrOff m2Off base st)

/-- Refill the output buffer: `Isaac64Rng::isaac64`. -/
def Isaac64Rng.isaac64 (s : Isaac64Rng) : Isaac64Rng :=
  let c := add64 s.c 1
  let b := add64 s.b c
  let st : RoundSt := ⟨s.a, b, s.mem, s.rsl⟩
  let st := halfPass64 0 128 32 0 st
  let st := halfPass64 128 0 32 0 st
  ⟨256, st.rsl, st.mem, st.a, st.b, c⟩

/-- Golden-ratio start value `0x9e3779b97f4a7c13` for the eight 64-bit mixing
variables. -/
def golden64 : Vars :=
  ⟨0x9e3779b97f4a7c13, 0x9e3779b97f4a7c13, 0x9e3779b97f4a7c13, 0x9e3779b97f4a7c13,
   0x9e3779b97f4a7c13, 0x9e3779b97f4a7c13, 0x9e3779b97f4a7c13, 0x9e3779b97f4a7c13⟩

/-- `Isaac64Rng::init`. -/
def Isaac64Rng.init (useRsl : Bool) (s : Isaac64Rng) : Isaac64Rng :=
  let v := mix64 (mix64 (mix64 (mix64 golden64)))
  let mem :=
    if useRsl then
      let p1 := memloopArr add64 mix64 s.rsl 32 0 v s.mem
      (memloopSelf add64 mix64 32 0 p1.1 p1.2).2
    else
      (memloopPlain mix64 32 0 v s.mem).2
  Isaac64Rng.isaac64 { s with mem := mem }

/-- `Isaac64Rng::next_u64`: refill when the consumed-count is zero, decrement
it, and return `rsl[(cnt % RAND_SIZE_64) as usize]`. -/
def Isaac64Rng.next_u64 (s : Isaac64Rng) : (Except CryptoError Nat) × Isaac64Rng :=
  let s := if s.cnt = 0 then s.isaac64 else s
  let s := { s with cnt := s.cnt - 1 }
  (Except.ok (s.rsl.getD (s.cnt % 256) 0), s)

/-- `Isaac64Rng::next_u32`: a freshly produced `next_u64` value truncated
(`as u32`). -/
def Isaac64Rng.next_u32 (s : Isaac64Rng) : (Except CryptoError Nat) × Isaac64Rng :=
  match s.next_u64 with
  | (Except.ok x, s') => (Except.ok (x % 4294967296), s')
  | (Except.error e, s') => (Except.error e, s')

/-- Little-endian byte encoding of a 64-bit word. -/
def u64ToLeBytes (x : Nat) : List Nat :=
  [x % 256, (x >>> 8) % 256, (x >>> 16) % 256, (x >>> 24) % 256,
   (x >>> 32) % 256, (x >>> 40) % 256, (x >>> 48) % 256, (x >>> 56) % 256]

/-- Modelled from the spec: `Isaac64Rng` takes `fill_bytes` from the trait
default, which is not among the provided sources.  Spec section 4.1: repeated
`next_u64` words written little-endian, a partial trailing chunk keeping only
the low-order bytes of one extra word. -/
def Isaac64Rng.fill_bytes : Nat → Isaac64Rng → Except CryptoError (List Nat × Isaac64Rng)
  | 0, s => Except.ok ([], s)
  | n+8, s =>
      match s.next_u64 with
      | (Except.ok x, s') =>
          match Isaac64Rng.fill_bytes n s' with
          | Except.ok p => Except.ok (u64ToLeBytes x ++ p.1, p.2)
          | Except.error e => Except.error e
      | (Except.error e, _) => Except.error e
  | n, s =>
      match s.next_u64 with
      | (Except.ok x, s') => Except.ok ((u64ToLeBytes x).take n, s')
      | (Except.error e, _) => Except.error e

/-- Modelled from the spec: `try_fill` for the 64-bit engine, as for the
32-bit one. -/
def Isaac64Rng.try_fill (len : Nat) (s : Isaac64Rng) :
    Except CryptoError (List Nat × Isaac64Rng) :=
  Isaac64Rng.fill_bytes len s

/-- Decode the `j`-th 64-bit word of a little-endian byte buffer. -/
def leWord64 (bytes : List Nat) (j : Nat) : Nat :=
  bytes.getD (8*j) 0 ||| (bytes.getD (8*j+1) 0 <<< 8) |||
  (bytes.getD (8*j+2) 0 <<< 16) ||| (bytes.getD (8*j+3) 0 <<< 24) |||
  (bytes.getD (8*j+4) 0 <<< 32) ||| (bytes.getD (8*j+5) 0 <<< 40) |||
  (bytes.getD (8*j+6) 0 <<< 48) ||| (bytes.getD (8*j+7) 0 <<< 56)

/-- `FromRng::from_rng` for `Isaac64Rng`: draw `RAND_SIZE_64 * 8 = 2048`
bytes from the upstream source into `rsl`, propagating any upstream error
unchanged, zero `cnt`/`a`/`b`/`c`, and run the seeded initialisation. -/
def Isaac64Rng.from_rng (fill : Nat → Except CryptoError (List Nat)) :
    Except CryptoError Isaac64Rng :=
  match fill 2048 with
  | Except.error e => Except.error e
  | Except.ok bytes =>
      let rsl := (List.range 256).map (fun j => leWord64 bytes j)
      Except.ok (Isaac64Rng.init true { EMPTY_64 with rsl := rsl, cnt := 0, a := 0, b := 0, c := 0 })

/-- `SeedableRng::reseed` for `Isaac64Rng`. -/
def Isaac64Rng.reseed (s : Isaac64Rng) (seed : List Nat) : Isaac64Rng :=
  let rsl := (List.range s.rsl.length).map (fun j => seed.getD j 0)
  Isaac64Rng.init true { s with rsl := rsl, cnt := 0, a := 0, b := 0, c := 0 }

/-- `SeedableRng::from_seed` for `Isaac64Rng`. -/
def Isaac64Rng.from_seed (seed : List Nat) : Isaac64Rng := EMPTY_64.reseed seed

/-- Successive `next_u64` outputs together with the final state. -/
def Isaac64Rng.nextWords : Nat → Isaac64Rng → List Nat × Isaac64Rng
  | 0, s => ([], s)
  | k+1, s =>
      match s.next_u64 with
      | (Except.ok x, s') =>
          let p := Isaac64Rng.nextWords k s'
          (x :: p.1, p.2)
      | (Except.error _, s') => ([], s')

/-- The error taxonomy of `rand_core` (`enum ErrorKind`); `Nonexhaustive` is
the hidden `__Nonexhaustive` placeholder variant. -/
inductive ErrorKind where
  | Unavailable
  | Transient
  | NotReady
  | Other
  | Nonexhaustive
deriving DecidableEq

/-- `ErrorKind::should_retry`. -/
def ErrorKind.should_retry : ErrorKind → Bool
  | ErrorKind.Transient | ErrorKind.NotReady => true
  | _ => false

/-- `ErrorKind::should_wait`. -/
def ErrorKind.should_wait : ErrorKind → Bool
  | ErrorKind.NotReady => true
  | _ => false

/-- `ErrorKind::description`; the `unreachable!()` panic on the hidden
placeholder kind is modelled as `none` (no normal return). -/
def ErrorKind.description : ErrorKind → Option String
  | ErrorKind.Unavailable => some "permanent failure or unavailable"
  | ErrorKind.Transient => some "transient failure"
  | ErrorKind.NotReady => some "not ready yet"
  | ErrorKind.Other => some "uncategorised"
  | ErrorKind.Nonexhaustive => none

/-- The blocks written by the first `memloop!` pass, as a freshly built list. -/
def memChunksArr (addf : Nat → Nat → Nat) (mixf : Vars → Vars) (arr : List Nat) :
    Nat → Nat → Vars → List Nat
  | 0, _, _ => []
  | n+1, i, v =>
      let v' := mixf (absorb addf v arr i)
      v'.toList ++ memChunksArr addf mixf arr n (i+8) v'

/-- A concrete 32-bit generator state with a partially consumed buffer,
used to instantiate universally quantified theorems. -/
def probe32 : IsaacRng := ⟨5, List.replicate 256 0, List.replicate 256 0, 0, 0, 0⟩

/-- A concrete 64-bit generator state with a partially consumed buffer. -/
def probe64 : Isaac64Rng := ⟨5, List.replicate 256 0, List.replicate 256 0, 0, 0, 0⟩

/-- An upstream source that always fails. -/
def errFill : Nat → Except CryptoError (List Nat) := fun _ => Except.error CryptoError.mk

/-- An upstream source that yields 1024 zero bytes. -/
def zeroFill : Nat → Except CryptoError (List Nat) := fun _ => Except.ok (List.replicate 1024 0)

/-- An upstream source that yields 2048 zero bytes. -/
def zeroFill64 : Nat → Except CryptoError (List Nat) := fun _ => Except.ok (List.replicate 2048 0)

/-- The seed `[1, 23, 456, 7890, 12345]` zero-padded to the pool capacity. -/
def seedPad : List Nat := [1, 23, 456, 7890, 12345, 0, 0, 0, 0, 0, 0, 0, 0, 0, 0, 0, 0, 0, 0, 0, 0, 0, 0, 0, 0, 0, 0, 0, 0, 0, 0, 0, 0, 0, 0, 0, 0, 0, 0, 0, 0, 0, 0, 0, 0, 0, 0, 0, 0, 0, 0, 0, 0, 0, 0, 0, 0, 0, 0, 0, 0, 0, 0, 0, 0, 0, 0, 0, 0, 0, 0, 0, 0, 0, 0, 0, 0, 0, 0, 0, 0, 0, 0, 0, 0, 0, 0, 0, 0, 0, 0, 0, 0, 0, 0, 0, 0, 0, 0, 0, 0, 0, 0, 0, 0, 0, 0, 0, 0, 0, 0, 0, 0, 0, 0, 0, 0, 0, 0, 0, 0, 0, 0, 0, 0, 0, 0, 0, 0, 0, 0, 0, 0, 0, 0, 0, 0, 0, 0, 0, 0, 0, 0, 0, 0, 0, 0, 0, 0, 0, 0, 0, 0, 0, 0, 0, 0, 0, 0, 0, 0, 0, 0, 0, 0, 0, 0, 0, 0, 0, 0, 0, 0, 0, 0, 0, 0, 0, 0, 0, 0, 0, 0, 0, 0, 0, 0, 0, 0, 0, 0, 0, 0, 0, 0, 0, 0, 0, 0, 0, 0, 0, 0, 0, 0, 0, 0, 0, 0, 0, 0, 0, 0, 0, 0, 0, 0, 0, 0, 0, 0, 0, 0, 0, 0, 0, 0, 0, 0, 0, 0, 0, 0, 0, 0, 0, 0, 0, 0, 0, 0, 0, 0, 0, 0, 0, 0, 0, 0, 0, 0, 0, 0, 0, 0, 0]

/-- Intermediate mixing variables and pool states of the C1/C2 seeded
initialisation, precomputed so that each evaluation step is checked against
an explicit literal. -/
def c1Vars0 : Vars := ⟨325574490, 2514026585, 3273014859, 255990488, 3643427448, 2769960009, 3304057371, 811634969⟩

def c1VarsA : Vars := ⟨2758956741, 1384473524, 3665382875, 443377048, 2629033210, 2537005062, 3726403134, 2284985271⟩

def c1MemA : List Nat := [938346803, 2925824700, 3066040238, 737912168, 4059359129, 2921668380, 1178188341, 2879009686, 2266857819, 3066223367, 272378755, 2051093820, 1379283327, 3164519713, 1848525190, 3460507194, 1786483748, 1784899572, 3328395186, 556612006, 3713688612, 1850897109, 2809355146, 2880813720, 32315338, 3750289579, 1357918185, 1898614400, 1494061247, 2971665147, 3727319649, 657895533, 3234049458, 2552674492, 722469623, 895874853, 3209907035, 3786712364, 1944165710, 254983876, 1344974582, 439062665, 2403655401, 3014836742, 283432035, 1090048187, 1345901947, 1443647003, 2128689741, 1615652298, 3128840744, 1541885345, 398457291, 300248461, 3584789762, 2356139587, 937927101, 4151220680, 2558943667, 3251312933, 1161454310, 648650152, 3273258576, 302218653, 225858570, 2115244558, 3715621768, 4093915088, 3528185402, 1278763071, 3560877815, 1945511155, 3133125531, 1861738838, 3733929168, 3775662249, 2310714703, 2648813115, 35771362, 1230851950, 3431139365, 1157758348, 636036166, 3936391546, 1357938096, 2177631998, 3403492474, 562894642, 1231343709, 4228351320, 1802728205, 1653691539, 543816790, 2314068704, 2557877397, 2406674472, 2332741500, 3779964472, 693229522, 1978604540, 1411342297, 879694055, 1671924114, 2367401941, 4154319297, 3637921809, 4265773451, 2975148964, 1656824840, 944540212, 3624555539, 246091329, 2063943513, 437006750, 922929820, 1115448866, 4285402666, 454798330, 830717344, 1864519340, 2751994374, 4028818751, 2195072232, 3108120190, 3448889304, 2572909934, 2471794338, 4039152081, 2156365475, 2273927686, 4059926683, 2353165479, 2096619983, 1172062871, 893181673, 1724573487, 2266874650, 2393119682, 3944794479, 449536337, 4162542802, 753004725, 1219134779, 1461966730, 1101567352, 137053321, 802923974, 4256650127, 2092664779, 2444852693, 3307105567, 222301932, 3692907528, 2609598383, 1234036443, 3387886779, 4004336299, 621092577, 1738230897, 1012864270, 2089390120, 1708399278, 2540609010, 913704077, 1841781094, 2421506418, 1851378546, 3234904404, 843663374, 2028779924, 2572986389, 1496521623, 2797508187, 3707743826, 2689833400, 548892782, 2073938185, 718783829, 1623346926, 2341814128, 4228296467, 4181728166, 4139350441, 1840005172, 2733144865, 441592610, 848084179, 3774699573, 1029168408, 3269390070, 2259133226, 870196844, 2445315115, 2524797513, 2392892679, 2458129658, 1975064312, 3348219585, 1442812296, 2762460894, 32101601, 3394361261, 899786786, 2315631168, 1315486454, 3162847497, 3281781148, 716393718, 1366811746, 3545057343, 287552175, 1516111581, 1405712393, 4006993730, 3769774712, 4237849708, 1420647241, 1482704179, 703131769, 3382019468, 4265908350, 3239508404, 2015899374, 4149478795, 3045361596, 755542223, 3970057619, 2794548594, 474120242, 838278052, 2765463325, 2622904645, 2885439650, 940182439, 3932345792, 3591983778, 45491101, 2200913215, 361204897, 315046143, 1154306827, 3158298368, 2686513863, 3982829906, 4259945975, 2364283753, 2739632873, 2574917059, 2758956741, 1384473524, 3665382875, 443377048, 2629033210, 2537005062, 3726403134, 2284985271]

def c1VarsB : Vars := ⟨2961070083, 2234685042, 1565022591, 305361922, 4080212573, 1739656675, 1403102455, 1329689990⟩

def c1MemB : List Nat := [1712872490, 947382367, 3173318737, 512919859, 1165090001, 2592904147, 2181745604, 2798145488, 2082575917, 1490152566, 734102288, 4218308472, 4019050715, 3894459442, 3373156007, 2281267016, 356952758, 3195628081, 3774956745, 3214225585, 3545539283, 177129012, 883309717, 1576770456, 3080809705, 1882799482, 2077140368, 638982167, 1650101958, 1107496175, 2896779992, 785825325, 1513817589, 834958732, 3760413238, 2340905123, 2669187638, 2694964686, 2872787184, 93103320, 3234537029, 2964822264, 3403495165, 3121514463, 124767048, 3854461026, 271935365, 1930709578, 1232384833, 1778416478, 2587914627, 146153141, 3555503591, 3273256785, 2999555504, 2995436620, 1422281815, 19254908, 595349029, 1981987741, 2311372389, 1504385245, 1755410923, 2715461143, 3405972612, 4277767364, 787002978, 4085469930, 90485650, 516982623, 2129030760, 3881366247, 3835686746, 4135181381, 2511020580, 3935685959, 3312040159, 3748899574, 2118467269, 3828424000, 2340894697, 365121119, 1971857896, 896710207, 3617720014, 98003467, 1003363518, 1394525502, 1933923867, 360576448, 2935521003, 3715798729, 3752314797, 3679825941, 1250254383, 539901662, 3927491747, 4055551605, 1333207174, 596116018, 855596725, 1426985111, 4172504923, 3638259053, 1669293454, 1589312260, 2647366774, 3737407983, 1562461158, 2613171238, 1402360049, 1231964203, 832848091, 702340559, 3437258054, 3730244685, 218605738, 535143973, 2973160287, 3445375292, 3085875115, 445715067, 3965456651, 407017744, 852540326, 1906932303, 2687836868, 2382732593, 2802276448, 150703634, 2155096722, 4160895075, 3008626004, 2990117888, 1360596932, 1182747111, 3079005169, 1534276493, 968599835, 2876937577, 3612899039, 2292643050, 1101107896, 3508552172, 589717606, 3832285238, 2207068528, 3750030654, 696443642, 868978375, 219935463, 1182978350, 792304523, 3110342273, 1808445011, 2247490730, 2788614945, 802752668, 990861407, 2664742049, 1031250844, 792027071, 3214553097, 1572045163, 1966214185, 2746740778, 209074522, 3810452698, 791450676, 2566887107, 2717742673, 1762052531, 2286540096, 388139463, 2178568013, 570831239, 2155126166, 3677479554, 219139770, 1330622530, 382219639, 2501385687, 351867498, 1274004251, 4287170784, 983730750, 498423784, 3261432168, 3398016489, 3249948139, 4292529772, 257717549, 264321019, 677097146, 1423373730, 1509556280, 2150739254, 2029509686, 3522891885, 468240454, 1014979937, 3930110980, 1098480702, 2414507144, 745932253, 3567676545, 2324215978, 3313083174, 3970531208, 541537242, 2083089601, 1827229522, 3328773705, 3465343467, 465222479, 1421557932, 1551270130, 3265186922, 390405558, 2903020693, 3874045784, 523829687, 2338425697, 3432829389, 2252831964, 4071855936, 397763601, 1955558445, 2924481075, 1765876974, 4282160880, 2862535443, 1913929058, 3066770697, 1048016372, 123167155, 4091611623, 3690205915, 2323079741, 1825422038, 605314281, 2891710412, 1696175854, 995022314, 714592057, 2297857200, 1180076258, 2829310145, 2961070083, 2234685042, 1565022591, 305361922, 4080212573, 1739656675, 1403102455, 1329689990]

def c1Rsl : List Nat := [417460698, 4028192072, 3778633018, 3230662532, 680575403, 381026452, 789799001, 417107250, 111824599, 4103323804, 271420230, 2588083225, 112222882, 141029388, 3250693634, 1951756371, 142198035, 4198991599, 1820894572, 1566625063, 4116370522, 979881680, 1006476872, 3755338469, 1658629593, 1200731225, 3727242326, 3724857282, 1803419136, 1472617294, 2317611425, 1381174354, 2612298291, 1424676338, 2778529116, 27925568, 1251157919, 1967673935, 724261460, 1789279174, 1226109829, 844106840, 596441353, 856056853, 2279863770, 1677960999, 2227493810, 1041714894, 2024689356, 2319953720, 3635930999, 1479360315, 2796915032, 4133722052, 3097558971, 879037337, 1642217278, 4109052327, 748666207, 3915911608, 940886168, 4113007569, 3243324407, 2512105470, 1140515002, 3838941375, 3678713390, 1742201001, 3080603538, 4265882197, 3638587040, 3676196370, 769602598, 58819823, 3542271424, 823465774, 1485360454, 469485155, 3134020146, 3263701389, 824171724, 1937166282, 3200135919, 2384725034, 3495257641, 362324486, 258167457, 2055233409, 356699244, 902113690, 3741935520, 4067666227, 3081627045, 616822848, 2580876913, 1075045635, 4136566269, 3193413698, 2185747500, 3557186101, 3520338774, 871388301, 1466849887, 1105344288, 1170949769, 3328968935, 3349707333, 4278945225, 2663569054, 3020188982, 1197190172, 4017717022, 3576037276, 2062937491, 3902480533, 3185308043, 3303319882, 1326594649, 1764068106, 3910597771, 3305014885, 3589259568, 2364458115, 4019916783, 850102802, 3005413005, 2680040356, 242891463, 2579165088, 1613453662, 554098186, 1018225063, 3936795307, 3143435066, 1624917951, 1862081686, 1242849296, 2518007243, 3216090565, 1796523378, 1318447942, 320755495, 3419506865, 1368711042, 2824402648, 3618272666, 2999095599, 784558811, 78955900, 2952067976, 1372232747, 3434720370, 1260544977, 2365146212, 4131524752, 3798760860, 2016539534, 579641308, 2904790465, 3994237502, 1624602612, 586857194, 949095487, 2232753070, 4121340351, 2262226180, 1630632454, 3071507208, 3385831692, 2361717230, 1252085522, 3912791785, 146698966, 4151643672, 1507880261, 2895047217, 3117938889, 444345764, 1549762300, 1588340079, 178863966, 708873984, 1839780982, 3868385267, 2142942742, 86779943, 4122703328, 1899178163, 1697430209, 1481639354, 2320642217, 52547672, 2786302295, 3997564361, 2303010525, 1899961838, 3693594104, 3077526058, 1139811705, 1462670565, 1171822250, 3041621374, 2611252291, 1384726770, 329542439, 334542755, 2355168082, 714291732, 2819108413, 1389313860, 3766197394, 1327554796, 1194683474, 373264829, 3531993176, 2451802064, 3712147195, 2579239263, 2487182657, 4232710683, 1544693439, 2011743171, 2618959073, 1406698044, 2262811627, 1264903467, 88868653, 438835472, 803765651, 446109445, 596919783, 2476600335, 1033135844, 1732873484, 4009086455, 136318144, 4000245992, 883253446, 1140046694, 3922199137, 3550055519, 3501436611, 2848473138, 1365151647, 185277065, 1766394113, 3900253796, 2737944514, 2765226902, 264982119, 4203127393, 3595684709, 2103644246, 263499565, 873787463, 2558573138]

def c1Mem : List Nat := [3536378737, 628383877, 1487913484, 870755116, 1202888658, 3076213394, 153317178, 3862667844, 4272109886, 3737499212, 2096777099, 1329495453, 2211887006, 1228883148, 660707907, 2500193085, 3132355322, 4089797419, 1951698367, 860465267, 928169303, 1911714910, 609726199, 3406477690, 3521419479, 879636795, 2174251872, 578937575, 2146441572, 3609019637, 3361565775, 806414517, 3082497000, 3739370486, 4267654330, 3840470559, 1683107793, 2785752819, 2502455593, 1462750028, 2693968760, 2608622324, 847776618, 638784699, 1228278023, 156842313, 3932393132, 3187999378, 2521981276, 316360516, 3525815185, 2633075697, 3620209120, 1725189218, 2279691737, 1815525820, 2824755813, 1030244132, 1015552877, 2244830186, 3795292570, 2778244323, 3856141307, 2268835951, 2468287591, 2653748138, 3270493960, 30952104, 1705383076, 3549771235, 400493638, 3711715186, 331625814, 679334575, 3190457056, 3624279544, 3084714144, 165735098, 3537693500, 3883781945, 2466576306, 182619944, 3149706028, 1488014827, 936221637, 2055668586, 2124486650, 4137695975, 1152297284, 2188854985, 1083211458, 2251742020, 255143720, 2743189185, 1094372780, 593351768, 2226034723, 3216211503, 2975199767, 3796623611, 2458811423, 2266531194, 2193991361, 3143544501, 2296221327, 2318398969, 1210959422, 2447853518, 2945596059, 2239098334, 957105201, 3556021806, 2000516199, 1542854850, 4103035750, 3320467215, 901853749, 3986072348, 3823756088, 962812723, 3236612978, 544841414, 2548867521, 64369581, 3551197659, 2815634275, 2770264677, 3181822310, 3352790065, 1466474442, 1363976481, 2730582658, 294408324, 3490192268, 3386311408, 3383568064, 3241250924, 4226213541, 4080954724, 2496301118, 3554264034, 4043553591, 2932713291, 2122498205, 252962806, 1888627508, 3763504209, 3338416088, 3141977614, 3765652304, 296575703, 468807073, 2594381016, 1911887116, 370129333, 421224813, 2010847700, 755195, 2818810186, 942944134, 2803990406, 3134998205, 3555137007, 3058186725, 4015702510, 128621580, 1540317169, 2526658511, 291398460, 4145039227, 2591547171, 1924338611, 1320337832, 1061833506, 4286918072, 1925134702, 4203601665, 970110590, 2816920960, 1105919400, 3046617538, 280533376, 1103890860, 2908119083, 1512771589, 62582994, 2944741238, 153762124, 94527672, 2720177538, 2289023010, 9979663, 1259651620, 994430111, 4247545648, 948398232, 1943389380, 4099124115, 3878577482, 573506842, 2325264373, 2160877065, 1224663373, 1891067188, 3909032188, 833009389, 414256879, 3336817262, 1239523050, 13150989, 11309090, 388034766, 1606625013, 2318929979, 3008341261, 1965614951, 969876738, 2813621466, 3414174082, 1825570179, 1568366495, 878709268, 209377052, 3760520413, 3019570440, 2157530904, 1425396835, 4172608637, 1785489604, 3127478516, 3111934249, 3960156558, 3517409989, 2238964236, 4003193677, 267339265, 1861665680, 4243934428, 3934755068, 1610623962, 253421865, 1447582593, 680354125, 1447979155, 3290322787, 2638104802, 1620768440, 119718036, 2788366201, 1847534215, 3754939881, 2110509323, 632346, 4094852043, 3175241348, 3110352221]

/-- The full state of the 32-bit engine right after `from_seed`. -/
def c1Final : IsaacRng := ⟨256, c1Rsl, c1Mem, 3315320551, 2558573138, 1⟩

def c2Vars0 : Vars := ⟨7240739780546808700, 13400657653193689186, 10092185256905347744, 12869931497269318948, 9435133421607575758, 5259722845879046933, 12580906657422019053, 11021839149480329387⟩

def c2VarsA : Vars := ⟨3583112215020046311, 5826303239609528410, 15294069888702423151, 1665730186655036936, 10468310008152783835, 10735983685211481031, 1651508073587219697, 11209706122591452617⟩

def c2MemA : List Nat := [17459949809030648186, 4888415249063463650, 765597721006830790, 14464416385375717983, 14507094343085516320, 12950238911109617594, 6963379429017638003, 12809772223859090252, 6637945359354037041, 336636789519927364, 3910148813128740868, 6571032802221244471, 13622825257881275830, 1071622818380684086, 16085064903166009062, 9191595861115072119, 17353046727058292094, 3298085100597350894, 139102191132425605, 634077108581188775, 567845011572719243, 15958066262681016756, 1309930279191687306, 1572640058911098153, 107272309806592043, 7066383581003287067, 11329186296803697470, 1183583632880681227, 10988933332993549563, 14868678129380936167, 4702775797878979237, 17174257731596732249, 10129682589676515719, 8698226342441525292, 2456154240644885344, 14197028470643398661, 8982178153005987596, 16990168977869009629, 2926855247304193412, 10542311333239195199, 8594835020196988361, 13704623431391481094, 13523159722130618639, 2894581731227179574, 2573821358007449883, 7115612896155079245, 12645885902995044113, 8795233049297153180, 17918591965273675513, 7258646342626611243, 11922941584317150908, 9627103061005332579, 3709922090590426290, 787924990120716005, 6137272519297758570, 5189143043386409237, 9011284808771885517, 17574881631923097295, 8754837198402215982, 3374663114812544492, 16993100709789099195, 12170231053020923154, 8096984411085852887, 16023150411519276443, 14009647383241596825, 13782899153103115277, 11295495514678159989, 16763652500914621718, 8294435347260478813, 5915842592441096861, 17278518849114412058, 9724426724991830456, 12136167810614525360, 13465447942261884442, 12290036841781838421, 15928967920203693569, 4861710350603448876, 4304268272238216260, 11346277054761972960, 17957414746320800539, 859370446262674781, 12992474754332730545, 1953886545575861262, 13146245121296779002, 16108203559799706719, 16263139423058028642, 140254527790727488, 12085627986556641390, 7746575758137655389, 3032491598897358932, 13479022292641681833, 6224277633290229675, 9153632441966256384, 13848951145246849173, 9664241057852860427, 9059259545403030644, 2122189933114242822, 12734792038848515788, 699182972973052526, 5603522133862093673, 5866635995362634713, 8790177604258062716, 9734219973207027983, 2048679817379172722, 12312142174301619813, 12353373859796007252, 13659272297959001764, 853811743490673932, 13392435452325560244, 11960997775162685099, 12977483006171503491, 15897166508143492888, 10648859914277984721, 1394571839323535080, 9012542552055750787, 7227197584654189915, 15364203861783090479, 14210969122210400332, 11265094283955246415, 7589675669236710479, 1120636587450306456, 5208289830505294414, 4169784709949324521, 149729984484208244, 8905806274775762747, 14267545089079645706, 8004201694753914264, 2724602199465175346, 15958727159282383181, 4032302851387337299, 2531981018833141973, 16604184441851533848, 17290291080449776889, 17228476970962097614, 3770189116770095003, 15228737301552203992, 3385636475832177181, 3216122831749304145, 1345865028239149781, 16611561543931244378, 7916966147627937813, 17233081925223252479, 477458653935588841, 15732355432644901155, 14834290713206026646, 1419218076721527641, 13708102610658608630, 16939906209230931207, 18254521340314551017, 6461863626099967069, 3347724941649324348, 12707864013072116041, 6118759556344206525, 4053641401140423791, 15564529558432388057, 1341273397818735367, 17300374621625849606, 9902436803838740541, 15420337505765369924, 7946358669423200481, 14270074335081335245, 1372907842126165769, 236476639713330309, 7606825839859308968, 9275795070209816201, 16635907238664661775, 15715787994086517806, 7604660447570979439, 13874236432305368595, 16934797457556315090, 11999395082905122495, 8856325341220547775, 2961024824103438558, 11080035297418292695, 15118236255889818608, 3742614131813439105, 1925181601322377035, 13899280020520954123, 13945220394472944254, 13683196923941232955, 3327193670684451396, 5636472213093773347, 9421141433968172359, 972628411459954133, 3211620019012285249, 11496451580856091278, 7586181833533853082, 14228235577399593630, 10118142922666352454, 15713007365978355184, 6913760944586517991, 3789124139248379962, 1360806967676322181, 2086622689307197541, 11693736058262458200, 7656120710471577791, 12692280458331861600, 3215156785970553134, 15707113867378903241, 7673226276474764346, 18054332096281702938, 17121767680419688133, 4415571413532180434, 5952349926598160319, 1072842205210750705, 12014164037343228322, 16306466405033103540, 8836145697836649917, 11801035997370158954, 14801533201196306664, 13530919934235900583, 6300058192099767766, 17063336620844232995, 15296681197166123433, 722546922561193069, 1070832782367865952, 8582991971032368632, 13385000529293703680, 11110768787708276878, 525112510318738491, 12907055960958376546, 8897791413432027414, 2267533010928341798, 13730165448014641479, 7970832417786510348, 17578055747700306391, 16761085934751941726, 14501910481222752298, 517405672326321673, 9471476200160965243, 13080492648370277347, 13350934626279575835, 3840090092469008391, 17225547562492593514, 7433692119914567232, 8821685658270894293, 797265499799468139, 10900427962590958092, 12209461459443558195, 11982675853006958480, 15974200908470518347, 16231629600561150392, 3004442075393842087, 15512660498007128112, 2611604257275838243, 7638672387089239183, 12496467875250712471, 17959584674488577035, 3583112215020046311, 5826303239609528410, 15294069888702423151, 1665730186655036936, 10468310008152783835, 10735983685211481031, 1651508073587219697, 11209706122591452617]

def c2VarsB : Vars := ⟨16958496472856527352, 13346817818194567968, 9813173386521397179, 1408428597811281273, 2561820403919107062, 12223117385958285163, 13862680636598413865, 2893695748807464871⟩

def c2MemB : List Nat := [4910461038964825745, 9113918391455478292, 92588013545249133, 16107852085463340647, 1456857728806937959, 8454845664785368564, 16319096870923684955, 3979283419452598372, 9335459933541491516, 17928498551812950555, 16854010321551552168, 336695156587770434, 8917244802647755655, 16083309340036132415, 15324925278158655613, 9302906275680542180, 10644820004827716655, 13405230648131618532, 2355921450734915459, 8625567266123148635, 17926756916514831745, 9052755754491121954, 9854018199722956469, 1006652594344301873, 7547729199284213942, 8982153541195738890, 14284675791686985586, 12713026860817507870, 7819580175844637923, 1908278474629003525, 11199943348278864933, 5751028087378634301, 7409969202290382640, 5589212676613577104, 9415955730433844636, 686188935612948896, 14281288991501603203, 13826295995370097873, 17004083413087872029, 16482805876557302800, 14462082227577528175, 3042988197112554911, 18007204121710217361, 18439436541998584341, 5073328213066489618, 18140112160631462016, 6234162834590398282, 5988294944147804845, 5125690068303916930, 14481855996230731434, 15686209239982151484, 15396010474032998403, 10628101353123464836, 14028174813511126970, 10499882043674110794, 932108496601980370, 2297440533612624548, 16524800999091050388, 5162249195005403754, 3729844223643820035, 15842898900428231148, 18286829236201888520, 8330949332888391810, 18187930893460084427, 4360780156822721440, 8050078907499002508, 15190790016597096365, 1741089401762749579, 3450453984563061778, 15474472094300235096, 17681093515038731795, 18341021507562690852, 11004618781373063882, 15507185342112083010, 16548715701991567379, 7387838603957697447, 13081038296733655072, 1432666361410847628, 15842476976891984065, 201893337096462817, 1031264889177803116, 11035119799500739127, 14668337109758424352, 16836322050892110535, 5622724531933017099, 10263555363852713433, 162823509558200763, 15019436064764286170, 7966821049361422787, 17417114280239336371, 10350983771348123517, 11789992824169123330, 9801463827840484635, 15476207701862324252, 15078061482885704767, 6290186900258708982, 15028846618053808581, 7811850314673906425, 12716553113886089902, 15273110860577001393, 16446834463381284037, 12861498588699925046, 2324943503721823817, 5933411769001011625, 6632965960955115593, 12717543072857123842, 7168727946548819970, 1554242742102649984, 1876287366115776483, 13937030914471407485, 1167598792392765835, 17778053131152846273, 5689423901907985654, 10708154390749017046, 6347210369895019715, 13370074549851890919, 13730048344140592962, 2529756697963434301, 15580141555170933747, 12038989286350264796, 15854848110628023823, 10062342189204908878, 17672804809596511356, 2916226492367279876, 14748563198743186246, 7081822593041707495, 14788597004629239051, 14468316455069462012, 10400245683019090832, 14711418126747780434, 12859514398416162490, 11687177948574841842, 6381009706642202763, 10464054734590706632, 224962986962861319, 17784595824053533979, 7063685616826454932, 8993934382591796581, 624705390665853517, 2528172855381651517, 16271126875112170947, 13519988072082376538, 6858146778075791364, 12029941520762462561, 15246942978926544138, 3650484635808530743, 11094807189088177085, 8189819186378356795, 1030000574839216797, 6350298699445665918, 12379059962050581970, 3920314659747581007, 4915061714341639257, 4359380798883554782, 2334385396335865314, 8044314758911944159, 3856384629244999901, 4864184512763069383, 18252260466006741301, 6857687069057206529, 10442748034999618776, 8165024072347706723, 8497483438511516886, 16271945892334563211, 18108562380442246138, 1923188093672311289, 11288278598422440119, 4243358226023323690, 1424983386843285665, 8661325925918439852, 16250976563723230666, 15092792864526828386, 8525760872468345138, 12023916824789631448, 3836363028209844457, 14587322272363058188, 17371221628929644582, 3364355801544970442, 14796094515640136315, 16200457312055717413, 1272016714436626829, 12785381771126853106, 7763689565739147722, 9303447309841965589, 3509602526886099909, 10039672395990289994, 8521964708950505661, 16024040132739869785, 11087108681426901227, 8641286059594291921, 14915956732320717573, 6261212786809383953, 7281246135140398371, 10989925752123334855, 17923370944509702851, 8259363087834379147, 14061312695399694572, 10884907958051739087, 15204298160590048284, 5212840414196343057, 2299233087749586470, 17169527067725667737, 14722268568271335595, 2796197891601844725, 1417796138802928868, 1388942046841886546, 17122954050559765140, 3007466996769472111, 16330954252558612868, 13583289501106176843, 1552147158603249094, 11549022883916808756, 14269116007326205374, 13058225951956482166, 16549865173802417501, 6595155472377673250, 4549137561707132108, 14155628894448303363, 15367103965288993837, 16638098130144601589, 9258177692689667628, 14400307968493715246, 8021813170198042228, 1424997573973033502, 7475661875743578589, 2468383271750697169, 1485045637639981423, 15919597130448892156, 5837604599636634407, 2099253958663828407, 750781901682971344, 1600722604027295720, 601932404319431037, 9252305473374762179, 12743159830018592558, 12509911346347319617, 16746173496679092322, 15811392890362848546, 17832389950989720035, 5754369365758888718, 8027051687807502932, 9730321104569112689, 17879394941983738457, 18420884099832518216, 10560861028290145578, 3891649991823764762, 11140080635499796812, 2511425398477952043, 16958496472856527352, 13346817818194567968, 9813173386521397179, 1408428597811281273, 2561820403919107062, 12223117385958285163, 13862680636598413865, 2893695748807464871]

def c2Rsl : List Nat := [15915079820337889627, 11037106485127789581, 17509702293784585504, 3415477377512677749, 1681820715769799278, 15842684268743066011, 17005285806536633851, 1732996657798764169, 5966777342717644667, 2932208462666460717, 7710713557683966141, 6717704863229973197, 6281893619301052585, 2551626980668220056, 6294136934882948633, 8779533146480693415, 5057590329534327529, 9754581090062203231, 5272147943102195335, 678705236087707813, 9922760877804898905, 2645000967131835134, 12897006396835511380, 10310099904186267462, 1610896471921981943, 16794003855869645315, 13007458785703101707, 4067746614948440889, 13995472479042226705, 6267659273512558307, 6100017092763881285, 20837127555172587, 11770749359113104080, 6191145080933008141, 9604668500803467885, 8829600125166351025, 6068822835049492033, 2443237538487001189, 13643965156019708520, 12305177810173956558, 8732881226725100401, 15024921185610528149, 4686150116304582675, 2520865323670684242, 8437684014611460060, 7562203210310645740, 1724449675352254151, 2337645386078389544, 3697044093873668295, 16581109954894559841, 17094637837793432757, 2638690302231432441, 5005011342484006708, 10854541600378576747, 3089693320468879663, 3728306388203825095, 12359782722817533426, 11940737561979912637, 3674001594152379490, 12134961645500530575, 15319525771228382383, 10830010914615671759, 13173740396044166924, 15583663796642516876, 9224964669585790823, 13887683507135636915, 7208100677478251381, 6583880464918524693, 1641808040998111751, 11739146147338463914, 16729426454632558887, 10930832784357459721, 7762172868253560550, 5087492956210034326, 579964803333055183, 5579192660392747420, 16917401324943499529, 15493979056810542200, 5800850325039142989, 17920785054136799012, 5390645688061357898, 11655144269081730127, 6782454064339018314, 11213232040252652407, 7031153129744298372, 5240801984340942090, 8824149435476640615, 14244544534375883898, 1543993800441502619, 13886326938850502328, 5761195604627549466, 9893113924261989215, 12100696915590071105, 16475007579596332991, 8127539914337598359, 1267433520746937639, 16580993776657057675, 5636233116076525756, 1351631633218245781, 14705761728851188234, 6522055098622238082, 15195883985035790360, 3877090662325072911, 17429634274162456833, 3515774820005804792, 16264200138724414271, 1465143702857860912, 6840217537995830923, 1352914236915927718, 15209047628908034314, 12716621676309574591, 17523213368322326342, 7078365948749872200, 14007711603343565967, 123583682143753262, 13972006954171321956, 1524031566698053170, 829186120932975007, 8629619986622827339, 17793358652109153514, 16546397162446214427, 4746608242836525080, 6084207513962751104, 13358974527366898652, 2652117824479300548, 14405507077325198179, 11546151091509735719, 5325019691201875985, 6014814304709233788, 2117371472442200586, 5806844070991031799, 9491410438588520892, 1454253705015027685, 17733392558462334379, 6209864262487270566, 10432658939432159448, 16181518394431878129, 7670993462490824401, 17747659441225618657, 1250955849397767638, 13233949957345295152, 6361522596795265041, 13715833847132997893, 11462592389036649402, 6350026944853478026, 16744582275464645969, 6709375810778320041, 12046203815623356696, 10465645248366088519, 15468131477051089115, 9261868821101271169, 6398307834798620427, 18046071841682807075, 18292720654919691074, 8187082815739837082, 14080047082241665144, 4547933681063190505, 3912517452356896475, 11305208394654006237, 16588008173626319218, 12377497118534949881, 3632264675987150983, 2281301800952317992, 17022727794017534555, 9097462980259566244, 6080145798711013453, 11033438835591920188, 16597811648059470765, 1479103108626486023, 15985010410201930536, 13828272622753548835, 4673100478624779702, 8999654434258992175, 14652912286689926976, 2884695967803671549, 11032463613606380899, 4777174974624064734, 12289577542393026399, 16185036562482022861, 9101450477713351418, 4781619241322726738, 17334519332833985214, 8365621970058578759, 15141051909478599996, 2021354926033075645, 1849133505552199621, 11502838654108031532, 11846412066356523543, 1565586348565405568, 2548995407920887380, 13215386155290258279, 9925071989244794171, 11431090230103082047, 13618921214023630383, 11831080292836298310, 12537034515956923969, 16529695967150391741, 13794698327541621904, 13798558732415805341, 1147375859149364206, 9277746899072251665, 16914687304895147806, 79629962522584772, 1574788357994235253, 196386605195319396, 7396021703908125810, 7928515450224975703, 12507263012960321781, 3198638675415077616, 11100402059408293004, 8147302630980922344, 3336556727464697586, 15832819776680214468, 3729314655852353747, 13470225065381859722, 10194066243315035370, 3226196641606159928, 16254882853112131770, 3898873702902107416, 8190726075856865556, 5648690483001383341, 6990119245288484115, 17752134274767154917, 5660406574926213895, 15619073065296980718, 11927776926996956334, 6799474134205997787, 12581571423157321940, 9966106578527280952, 7579188219249482992, 4345960690554651128, 9705221226510050710, 17827266944421373181, 1582468983332828318, 2838732756380803809, 15021336744825271660, 7138988725622365727, 13328505448664964707, 13436032621920806765, 9053926578353437639, 4909860546858192131, 11600511441338178910, 8932446884465036511, 7528941236475625627, 5250658797968229634, 6980276261223074348, 13722198873481261842, 6860251611068737823, 15552757044682284409, 4469761996653280935, 13970131091560099343, 11952566807690396487, 1238879483818134882, 17351601304698403469, 14377643087320773276, 547121783600835980]

def c2Mem : List Nat := [11952392841622339926, 1202290956930723373, 13454137140169066604, 14891594875327184767, 15666057117885019574, 12230562436150352722, 10234277917257440446, 17123803153608579436, 15162019230083380187, 5984901275524409247, 7740306224445766793, 12993377003300988333, 4570077307868769119, 17495077013303378708, 1078802964240994778, 188712770369623249, 9159518398612509611, 8143411189553402129, 7868835123388735340, 195218265129726051, 1870190336769066221, 14381279518662572765, 6175892303197588782, 15086625816641388107, 8405117421856710540, 54119721783200358, 17651409964116101478, 12336152789877186821, 11992087861079356547, 11981932988497973238, 11496222505161445208, 17018098099279302981, 998799877734008739, 17408901419073225254, 4848593171255950882, 514962450722359411, 9435644673526871722, 6240727296267011824, 10776907583667617755, 8946585802672350202, 5852697419403971768, 11499692002356816552, 9459393655246259165, 3088626269399309586, 17671852543321149344, 6007079657066239264, 5008663227501080369, 14769481855684940347, 1563703769354009094, 11036555350504320485, 5314428496566016364, 13933339856036136292, 12823654063070093488, 14528386601919911987, 5285974795893180939, 2628995461900295528, 13094097639656115226, 7019092826122613343, 15499266361106874394, 15329552932760240815, 4842791063155775114, 5970706629665361573, 7323684484283490684, 2477993175051039420, 17718891717040336195, 1124969572842545579, 13856955906988977565, 15195570810824810549, 13423990694197780273, 2909790369489882817, 8452221698085776097, 10167616147179014161, 15694362905655259297, 1075460233869361437, 6563902976368967248, 5128483918740118306, 13913984677348995876, 3546657065867290429, 1301040036671701238, 9499796016190849670, 620024469580991000, 3894186498988343920, 4156957705038702164, 691549051818190604, 9569688252168264583, 1377081398922977982, 2897690646367408, 15596719909981742459, 3663859202435410218, 7269337823871627747, 11706457721928814664, 3299557212594548921, 12633449007123677849, 9549828039636485504, 4475375236395103758, 13131010127341167818, 8686631414711882991, 8308847457804772633, 15240653501109628333, 18191904310879031685, 16100170108502922725, 13136541843387635672, 16300792683610675190, 3941581499381380937, 17481872943975882517, 16883453039089445073, 475987401615300108, 1481392450431989225, 14187916401006481715, 9117832777605423197, 15659083156515363707, 11394073746284420925, 13489760946452589333, 12354453422036147075, 3638281860932431360, 7116360954241041003, 13299447204093702058, 12714680945147340221, 14587563168249213831, 6993634286959557902, 17745527775037134996, 17225334540101942144, 3598910770937362120, 1790658995469223602, 16345063621544160913, 5262039268239470774, 14891885414952874327, 13022413893636831615, 9999372019421815583, 6035732323329720985, 6978513811322665195, 15409567155942675821, 7156636128102345315, 1934749083535331105, 473893561790647037, 11903366276050096787, 5603982767208754256, 4043440448591116693, 4235409000953180393, 6460306756928948885, 9556201865651951793, 11000448401835636467, 9981785530841759171, 4797525180580598553, 7554801210352659027, 13360325323341809525, 2690693276688590555, 2980873945157525871, 1021941506867536310, 13471056969909103315, 17041004645535308673, 2996099471255928655, 3317887286534929394, 5896868971365374370, 13707016868407624121, 2427719196454685560, 12476567848187238778, 1955339565956361205, 5603669823937661318, 1789607084800576247, 9318993618190216469, 10256205183271461243, 13910273739684064434, 9097577551934468806, 8236719271050813526, 14920980225951176623, 3823716456353963941, 5331521354021964739, 4149844094962683676, 13132239501861189144, 3845089254450780205, 8925221740848055957, 1128799254128374257, 15963856632011667777, 14292672368102369482, 11347737239367185621, 5944641061346428639, 13058926751461497537, 916031865437974222, 4859603345701960669, 918684302806728810, 14837256864021267329, 1272812561049272914, 1770773742019355903, 10544138209879115214, 4277671428122544822, 7875123314415148426, 5785318261220877357, 10101869110490388778, 5663778575521909266, 4023795774295336713, 15460062094443070519, 11712494621981229806, 14281359413795208877, 15108718366417981400, 313554330110511475, 8839559302652825021, 8104498622482754990, 3804105467960800793, 3414608036245842537, 17808809319743100321, 4829908949940772532, 4128501978890646545, 3811077593532976292, 5083468728859086254, 7810006263202409625, 7933405597507471555, 3171999845029411854, 4348826212590785780, 14382666029539880295, 3449858653943151188, 17543135839277036827, 10609880712461517093, 5479934260585654585, 8542317000071762867, 15347540809298465814, 18259849443617028838, 3595178788871679784, 15013069209314530302, 8045663964217738106, 13146244817111853569, 14050386744640638346, 5215052755218435082, 17923499050914304033, 17449717646592346525, 698041821451866341, 1822491331075871756, 7450367217399894096, 5225311382297006189, 14607527538340047120, 16472475237348199295, 17697488871731112192, 14587957122773012296, 9601148829450187660, 14976980271504995927, 8959806376257240637, 18442713165558326105, 5438398795289029996, 16485173253412679519, 13006086491951257947, 15867014702026578006, 143757300643440430, 11535425881993019089, 15685147311756052054, 16183986779596205360, 2582118237981465030, 292852260067060313, 4463466240433619945, 7389913543870296760, 9954092214879691081, 16483815622493509443, 16212370637894043333, 1447843619895000909, 4693439095208303742, 9481530262900776021, 14357438275778193118]

/-- The full state of the 64-bit engine right after `from_seed`. -/
def c2Final : Isaac64Rng := ⟨256, c2Rsl, c2Mem, 2242552482570766098, 547121783600835980, 1⟩

/-! Helper lemmas. -/

theorem writeBlock_length (mem : List Nat) (i : Nat) (v : Vars) :
    (writeBlock mem i v).length = mem.length := by
  simp [writeBlock]

theorem writeBlock_eq : ∀ (i : Nat) (mem : List Nat) (v : Vars), i + 8 ≤ mem.length →
    writeBlock mem i v = mem.take i ++ v.toList ++ mem.drop (i + 8)
  | 0, m0 :: m1 :: m2 :: m3 :: m4 :: m5 :: m6 :: m7 :: rest, v, _ => rfl
  | i+1, m :: mem, v, h => by
      have step : writeBlock (m :: mem) (i+1) v = m :: writeBlock mem i v := rfl
      have ih := writeBlock_eq i mem v (by simp at h; omega)
      simp [step, ih, List.take_succ_cons, List.drop_succ_cons]

/-- The mixing-variable thread of the first `memloop!` pass does not depend on
the pool contents. -/
theorem memloopArr_fst_indep (addf : Nat → Nat → Nat) (mixf : Vars → Vars)
    (arr : List Nat) : ∀ (n i : Nat) (v : Vars) (mem mem' : List Nat),
    (memloopArr addf mixf arr n i v mem).1 = (memloopArr addf mixf arr n i v mem').1
  | 0, _, _, _, _ => rfl
  | n+1, i, v, mem, mem' =>
      memloopArr_fst_indep addf mixf arr n (i+8) _ (writeBlock mem i _) (writeBlock mem' i _)

/-- Characterisation of the pool after the first `memloop!` pass: the
processed region is overwritten wholesale. -/
theorem memloopArr_snd_char (addf : Nat → Nat → Nat) (mixf : Vars → Vars)
    (arr : List Nat) : ∀ (n i : Nat) (v : Vars) (mem : List Nat), i + 8*n ≤ mem.length →
    (memloopArr addf mixf arr n i v mem).2 =
      mem.take i ++ memChunksArr addf mixf arr n i v ++ mem.drop (i + 8*n)
  | 0, i, v, mem, h => by
      simp [memloopArr, memChunksArr]
  | n+1, i, v, mem, h => by
      have hlen : (writeBlock mem i (mixf (absorb addf v arr i))).length = mem.length :=
        writeBlock_length ..
      have h8 : i + 8 ≤ mem.length := by omega
      have hA : (mem.take i).length = i := by simp [List.length_take]; omega
      have ih := memloopArr_snd_char addf mixf arr n (i+8)
        (mixf (absorb addf v arr i)) (writeBlock mem i (mixf (absorb addf v arr i)))
        (by omega)
      have htk : (mem.take i ++ (Vars.toList (mixf (absorb addf v arr i)) ++ mem.drop (i+8))).take (i+8) =
          mem.take i ++ Vars.toList (mixf (absorb addf v arr i)) := by
        have e1 : i + 8 = (mem.take i).length + 8 := by omega
        rw [e1, List.take_append 8]
        have e2 : (8 : Nat) = (Vars.toList (mixf (absorb addf v arr i))).length := rfl
        rw [e2, List.take_left]
      have hdr : (mem.take i ++ (Vars.toList (mixf (absorb addf v arr i)) ++ mem.drop (i+8))).drop (i+8+8*n) =
          mem.drop (i + 8*(n+1)) := by
        have e1 : i + 8 + 8*n = (mem.take i).length + (8 + 8*n) := by omega
        rw [e1, List.drop_append (8 + 8*n)]
        have e2 : (8 + 8*n : Nat) = (Vars.toList (mixf (absorb addf v arr i))).length + 8*n := rfl
        rw [e2, List.drop_append (8*n), List.drop_drop]
        congr 1
        omega
      show (memloopArr addf mixf arr n (i+8) (mixf (absorb addf v arr i))
            (writeBlock mem i (mixf (absorb addf v arr i)))).2 = _
      rw [ih, writeBlock_eq i mem _ h8, List.append_assoc (mem.take i), htk, hdr]
      simp [memChunksArr, List.append_assoc]

/-- The first `memloop!` pass overwrites the whole pool, so its result does
not depend on the previous pool contents (given the fixed pool size). -/
theorem memloopArr_const (addf : Nat → Nat → Nat) (mixf : Vars → Vars)
    (arr : List Nat) (v : Vars) (mem mem' : List Nat)
    (h : mem.length = 256) (h' : mem'.length = 256) :
    memloopArr addf mixf arr 32 0 v mem = memloopArr addf mixf arr 32 0 v mem' := by
  have c1 := memloopArr_snd_char addf mixf arr 32 0 v mem (by omega)
  have c2 := memloopArr_snd_char addf mixf arr 32 0 v mem' (by omega)
  have e1 : mem.take 0 ++ memChunksArr addf mixf arr 32 0 v ++ mem.drop (0+8*32) =
      memChunksArr addf mixf arr 32 0 v := by
    rw [List.take_zero, List.nil_append, List.drop_eq_nil_of_le (by omega), List.append_nil]
  have e2 : mem'.take 0 ++ memChunksArr addf mixf arr 32 0 v ++ mem'.drop (0+8*32) =
      memChunksArr addf mixf arr 32 0 v := by
    rw [List.take_zero, List.nil_append, List.drop_eq_nil_of_le (by omega), List.append_nil]
  exact Prod.ext (memloopArr_fst_indep ..)
    (c1.trans (e1.trans (e2.symm.trans c2.symm)))

theorem memloopArr_snd_length (addf : Nat → Nat → Nat) (mixf : Vars → Vars)
    (arr : List Nat) : ∀ (n i : Nat) (v : Vars) (mem : List Nat),
    (memloopArr addf mixf arr n i v mem).2.length = mem.length
  | 0, _, _, _ => rfl
  | n+1, i, v, mem => by
      show (memloopArr addf mixf arr n (i+8) _ (writeBlock mem i _)).2.length = _
      rw [memloopArr_snd_length addf mixf arr n (i+8) _ (writeBlock mem i _),
          writeBlock_length]

theorem memloopSelf_snd_length (addf : Nat → Nat → Nat) (mixf : Vars → Vars) :
    ∀ (n i : Nat) (v : Vars) (mem : List Nat),
    (memloopSelf addf mixf n i v mem).2.length = mem.length
  | 0, _, _, _ => rfl
  | n+1, i, v, mem => by
      show (memloopSelf addf mixf n (i+8) _ (writeBlock mem i _)).2.length = _
      rw [memloopSelf_snd_length addf mixf n (i+8) _ (writeBlock mem i _),
          writeBlock_length]

theorem rngstep32_mem_length (left : Bool) (shift mrOff m2Off base : Nat) (st : RoundSt) :
    (rngstep32 left shift mrOff m2Off base st).mem.length = st.mem.length := by
  simp [rngstep32]

theorem rngstep32_rsl_length (left : Bool) (shift mrOff m2Off base : Nat) (st : RoundSt) :
    (rngstep32 left shift mrOff m2Off base st).rsl.length = st.rsl.length := by
  simp [rngstep32]

theorem halfPass32_mem_length (mrOff m2Off : Nat) : ∀ (n base : Nat) (st : RoundSt),
    (halfPass32 mrOff m2Off n base st).mem.length = st.mem.length
  | 0, _, _ => rfl
  | n+1, base, st => by
      show (halfPass32 mrOff m2Off n (base+4) (rngGroup32 mrOff m2Off base st)).mem.length = _
      rw [halfPass32_mem_length mrOff m2Off n (base+4) (rngGroup32 mrOff m2Off base st)]
      simp [rngGroup32, rngstep32_mem_length]

theorem halfPass32_rsl_length (mrOff m2Off : Nat) : ∀ (n base : Nat) (st : RoundSt),
    (halfPass32 mrOff m2Off n base st).rsl.length = st.rsl.length
  | 0, _, _ => rfl
  | n+1, base, st => by
      show (halfPass32 mrOff m2Off n (base+4) (rngGroup32 mrOff m2Off base st)).rsl.length = _
      rw [halfPass32_rsl_length mrOff m2Off n (base+4) (rngGroup32 mrOff m2Off base st)]
      simp [rngGroup32, rngstep32_rsl_length]

theorem isaac_rsl_length (s : IsaacRng) : s.isaac.rsl.length = s.rsl.length := by
  simp [IsaacRng.isaac, halfPass32_rsl_length]

theorem isaac_mem_length (s : IsaacRng) : s.isaac.mem.length = s.mem.length := by
  simp [IsaacRng.isaac, halfPass32_mem_length]

theorem memloopPlain_snd_length (mixf : Vars → Vars) :
    ∀ (n i : Nat) (v : Vars) (mem : List Nat),
    (memloopPlain mixf n i v mem).2.length = mem.length
  | 0, _, _, _ => rfl
  | n+1, i, v, mem => by
      show (memloopPlain mixf n (i+8) _ (writeBlock mem i _)).2.length = _
      rw [memloopPlain_snd_length mixf n (i+8) _ (writeBlock mem i _), writeBlock_length]

theorem update_mem_mem (s : IsaacRng) (m : List Nat) :
    ({ s with mem := m } : IsaacRng).mem = m := rfl

theorem update_mem_rsl (s : IsaacRng) (m : List Nat) :
    ({ s with mem := m } : IsaacRng).rsl = s.rsl := rfl

/-- Unfolding of the seeded branch of `IsaacRng::init`. -/
theorem init_true_eq (s : IsaacRng) : IsaacRng.init true s =
    IsaacRng.isaac { s with mem := (memloopSelf add32 mix32 32 0
      (memloopArr add32 mix32 s.rsl 32 0 (mix32 (mix32 (mix32 (mix32 golden32)))) s.mem).1
      (memloopArr add32 mix32 s.rsl 32 0 (mix32 (mix32 (mix32 (mix32 golden32)))) s.mem).2).2 } := rfl

/-- Unfolding of the unseeded branch of `IsaacRng::init`. -/
theorem init_false_eq (s : IsaacRng) : IsaacRng.init false s =
    IsaacRng.isaac { s with mem := (memloopPlain mix32 32 0
      (mix32 (mix32 (mix32 (mix32 golden32)))) s.mem).2 } := rfl

theorem init_rsl_length (u : Bool) (s : IsaacRng) :
    (IsaacRng.init u s).rsl.length = s.rsl.length := by
  cases u
  · rw [init_false_eq, isaac_rsl_length, update_mem_rsl]
  · rw [init_true_eq, isaac_rsl_length, update_mem_rsl]

theorem init_mem_length (u : Bool) (s : IsaacRng) :
    (IsaacRng.init u s).mem.length = s.mem.length := by
  cases u
  · rw [init_false_eq, isaac_mem_length, update_mem_mem, memloopPlain_snd_length]
  · rw [init_true_eq, isaac_mem_length, update_mem_mem,
        memloopSelf_snd_length, memloopArr_snd_length]

/-- Unfolding of `IsaacRng::reseed`. -/
theorem reseed_eq (s : IsaacRng) (seed : List Nat) : s.reseed seed =
    IsaacRng.init true { s with
      rsl := (List.range s.rsl.length).map (fun j => seed.getD j 0),
      cnt := 0, a := 0, b := 0, c := 0 } := rfl

theorem reseed_rsl_length (s : IsaacRng) (seed : List Nat) :
    (s.reseed seed).rsl.length = s.rsl.length := by
  rw [reseed_eq, init_rsl_length]
  show (List.map _ (List.range s.rsl.length)).length = _
  rw [List.length_map, List.length_range]

theorem reseed_mem_length (s : IsaacRng) (seed : List Nat) :
    (s.reseed seed).mem.length = s.mem.length := by
  rw [reseed_eq, init_mem_length]

theorem from_seed_rsl_length (seed : List Nat) :
    (IsaacRng.from_seed seed).rsl.length = 256 := by
  rw [IsaacRng.from_seed, reseed_rsl_length]
  show (List.replicate 256 0).length = 256
  rw [List.length_replicate]

theorem from_seed_mem_length (seed : List Nat) :
    (IsaacRng.from_seed seed).mem.length = 256 := by
  rw [IsaacRng.from_seed, reseed_mem_length]
  show (List.replicate 256 0).length = 256
  rw [List.length_replicate]

theorem next_u32_rsl_length (s : IsaacRng) :
    (s.next_u32).2.rsl.length = s.rsl.length := by
  by_cases h : s.cnt = 0 <;> simp [IsaacRng.next_u32, h, isaac_rsl_length]

theorem next_u32_mem_length (s : IsaacRng) :
    (s.next_u32).2.mem.length = s.mem.length := by
  by_cases h : s.cnt = 0 <;> simp [IsaacRng.next_u32, h, isaac_mem_length]

theorem nextWords_rsl_length : ∀ (k : Nat) (s : IsaacRng),
    (IsaacRng.nextWords k s).2.rsl.length = s.rsl.length
  | 0, _ => rfl
  | k+1, s => by
      show (IsaacRng.nextWords k (s.next_u32).2).2.rsl.length = s.rsl.length
      rw [nextWords_rsl_length k (s.next_u32).2, next_u32_rsl_length]

theorem nextWords_mem_length : ∀ (k : Nat) (s : IsaacRng),
    (IsaacRng.nextWords k s).2.mem.length = s.mem.length
  | 0, _ => rfl
  | k+1, s => by
      show (IsaacRng.nextWords k (s.next_u32).2).2.mem.length = s.mem.length
      rw [nextWords_mem_length k (s.next_u32).2, next_u32_mem_length]

/-- Seeded initialisation depends on the previous state only through `rsl`,
`cnt` and the accumulators: the pool contents are fully overwritten. -/
theorem init_true_indep (s t : IsaacRng) (hr : s.rsl = t.rsl) (hc : s.cnt = t.cnt)
    (ha : s.a = t.a) (hb : s.b = t.b) (hcc : s.c = t.c)
    (hm : s.mem.length = 256) (hm' : t.mem.length = 256) :
    IsaacRng.init true s = IsaacRng.init true t := by
  have hp : memloopArr add32 mix32 t.rsl 32 0 (mix32 (mix32 (mix32 (mix32 golden32)))) s.mem =
      memloopArr add32 mix32 t.rsl 32 0 (mix32 (mix32 (mix32 (mix32 golden32)))) t.mem :=
    memloopArr_const _ _ _ _ _ _ hm hm'
  rw [init_true_eq, init_true_eq, hr, hp, hc, ha, hb, hcc]

/-- Reseeding any generator of the canonical pool size with `seed` yields
exactly the fresh generator built from `seed`. -/
theorem reseed_eq_from_seed (s : IsaacRng) (seed : List Nat)
    (hr : s.rsl.length = 256) (hm : s.mem.length = 256) :
    s.reseed seed = IsaacRng.from_seed seed := by
  show IsaacRng.init true { s with
      rsl := (List.range s.rsl.length).map (fun j => seed.getD j 0),
      cnt := 0, a := 0, b := 0, c := 0 } =
    IsaacRng.init true { EMPTY with
      rsl := (List.range EMPTY.rsl.length).map (fun j => seed.getD j 0),
      cnt := 0, a := 0, b := 0, c := 0 }
  have hE : EMPTY.rsl.length = 256 := by
    show (List.replicate 256 0).length = 256
    rw [List.length_replicate]
  rw [hr, hE]
  apply init_true_indep
  · rfl
  · rfl
  · rfl
  · rfl
  · rfl
  · exact hm
  · show (List.replicate 256 0).length = 256
    rw [List.length_replicate]

theorem rngstep64_mem_length (left cm : Bool) (shift mrOff m2Off base : Nat) (st : RoundSt) :
    (rngstep64 left cm shift mrOff m2Off base st).mem.length = st.mem.length := by
  simp [rngstep64]

theorem rngstep64_rsl_length (left cm : Bool) (shift mrOff m2Off base : Nat) (st : RoundSt) :
    (rngstep64 left cm shift mrOff m2Off base st).rsl.length = st.rsl.length := by
  simp [rngstep64]

theorem halfPass64_mem_length (mrOff m2Off : Nat) : ∀ (n base : Nat) (st : RoundSt),
    (halfPass64 mrOff m2Off n base st).mem.length = st.mem.length
  | 0, _, _ => rfl
  | n+1, base, st => by
      show (halfPass64 mrOff m2Off n (base+4) (rngGroup64 mrOff m2Off base st)).mem.length = _
      rw [halfPass64_mem_length mrOff m2Off n (base+4) (rngGroup64 mrOff m2Off base st)]
      simp [rngGroup64, rngstep64_mem_length]

theorem halfPass64_rsl_length (mrOff m2Off : Nat) : ∀ (n base : Nat) (st : RoundSt),
    (halfPass64 mrOff m2Off n base st).rsl.length = st.rsl.length
  | 0, _, _ => rfl
  | n+1, base, st => by
      show (halfPass64 mrOff m2Off n (base+4) (rngGroup64 mrOff m2Off base st)).rsl.length = _
      rw [halfPass64_rsl_length mrOff m2Off n (base+4) (rngGroup64 mrOff m2Off base st)]
      simp [rngGroup64, rngstep64_rsl_length]

theorem isaac64_rsl_length (s : Isaac64Rng) : s.isaac64.rsl.length = s.rsl.length := by
  simp [Isaac64Rng.isaac64, halfPass64_rsl_length]

theorem isaac64_mem_length (s : Isaac64Rng) : s.isaac64.mem.length = s.mem.length := by
  simp [Isaac64Rng.isaac64, halfPass64_mem_length]

theorem update64_mem_mem (s : Isaac64Rng) (m : List Nat) :
    ({ s with mem := m } : Isaac64Rng).mem = m := rfl

theorem update64_mem_rsl (s : Isaac64Rng) (m : List Nat) :
    ({ s with mem := m } : Isaac64Rng).rsl = s.rsl := rfl

/-- Unfolding of the seeded branch of `Isaac64Rng::init`. -/
theorem init64_true_eq (s : Isaac64Rng) : Isaac64Rng.init true s =
    Isaac64Rng.isaac64 { s with mem := (memloopSelf add64 mix64 32 0
      (memloopArr add64 mix64 s.rsl 32 0 (mix64 (mix64 (mix64 (mix64 golden64)))) s.mem).1
      (memloopArr add64 mix64 s.rsl 32 0 (mix64 (mix64 (mix64 (mix64 golden64)))) s.mem).2).2 } := rfl

/-- Unfolding of the unseeded branch of `Isaac64Rng::init`. -/
theorem init64_false_eq (s : Isaac64Rng) : Isaac64Rng.init false s =
    Isaac64Rng.isaac64 { s with mem := (memloopPlain mix64 32 0
      (mix64 (mix64 (mix64 (mix64 golden64)))) s.mem).2 } := rfl

theorem init64_rsl_length (u : Bool) (s : Isaac64Rng) :
    (Isaac64Rng.init u s).rsl.length = s.rsl.length := by
  cases u
  · rw [init64_false_eq, isaac64_rsl_length, update64_mem_rsl]
  · rw [init64_true_eq, isaac64_rsl_length, update64_mem_rsl]

theorem init64_mem_length (u : Bool) (s : Isaac64Rng) :
    (Isaac64Rng.init u s).mem.length = s.mem.length := by
  cases u
  · rw [init64_false_eq, isaac64_mem_length, update64_mem_mem, memloopPlain_snd_length]
  · rw [init64_true_eq, isaac64_mem_length, update64_mem_mem,
        memloopSelf_snd_length, memloopArr_snd_length]

/-- Unfolding of `Isaac64Rng::reseed`. -/
theorem reseed64_eq (s : Isaac64Rng) (seed : List Nat) : s.reseed seed =
    Isaac64Rng.init true { s with
      rsl := (List.range s.rsl.length).map (fun j => seed.getD j 0),
      cnt := 0, a := 0, b := 0, c := 0 } := rfl

theorem reseed64_rsl_length (s : Isaac64Rng) (seed : List Nat) :
    (s.reseed seed).rsl.length = s.rsl.length := by
  rw [reseed64_eq, init64_rsl_length]
  show (List.map _ (List.range s.rsl.length)).length = _
  rw [List.length_map, List.length_range]

theorem reseed64_mem_length (s : Isaac64Rng) (seed : List Nat) :
    (s.reseed seed).mem.length = s.mem.length := by
  rw [reseed64_eq, init64_mem_length]

theorem from_seed64_rsl_length (seed : List Nat) :
    (Isaac64Rng.from_seed seed).rsl.length = 256 := by
  rw [Isaac64Rng.from_seed, reseed64_rsl_length]
  show (List.replicate 256 0).length = 256
  rw [List.length_replicate]

theorem from_seed64_mem_length (seed : List Nat) :
    (Isaac64Rng.from_seed seed).mem.length = 256 := by
  rw [Isaac64Rng.from_seed, reseed64_mem_length]
  show (List.replicate 256 0).length = 256
  rw [List.length_replicate]

theorem next_u64_rsl_length (s : Isaac64Rng) :
    (s.next_u64).2.rsl.length = s.rsl.length := by
  by_cases h : s.cnt = 0 <;> simp [Isaac64Rng.next_u64, h, isaac64_rsl_length]

theorem next_u64_mem_length (s : Isaac64Rng) :
    (s.next_u64).2.mem.length = s.mem.length := by
  by_cases h : s.cnt = 0 <;> simp [Isaac64Rng.next_u64, h, isaac64_mem_length]

theorem nextWords64_rsl_length : ∀ (k : Nat) (s : Isaac64Rng),
    (Isaac64Rng.nextWords k s).2.rsl.length = s.rsl.length
  | 0, _ => rfl
  | k+1, s => by
      show (Isaac64Rng.nextWords k (s.next_u64).2).2.rsl.length = s.rsl.length
      rw [nextWords64_rsl_length k (s.next_u64).2, next_u64_rsl_length]

theorem nextWords64_mem_length : ∀ (k : Nat) (s : Isaac64Rng),
    (Isaac64Rng.nextWords k s).2.mem.length = s.mem.length
  | 0, _ => rfl
  | k+1, s => by
      show (Isaac64Rng.nextWords k (s.next_u64).2).2.mem.length = s.mem.length
      rw [nextWords64_mem_length k (s.next_u64).2, next_u64_mem_length]

/-- Seeded initialisation of the 64-bit engine likewise overwrites the pool. -/
theorem init64_true_indep (s t : Isaac64Rng) (hr : s.rsl = t.rsl) (hc : s.cnt = t.cnt)
    (ha : s.a = t.a) (hb : s.b = t.b) (hcc : s.c = t.c)
    (hm : s.mem.length = 256) (hm' : t.mem.length = 256) :
    Isaac64Rng.init true s = Isaac64Rng.init true t := by
  have hp : memloopArr add64 mix64 t.rsl 32 0 (mix64 (mix64 (mix64 (mix64 golden64)))) s.mem =
      memloopArr add64 mix64 t.rsl 32 0 (mix64 (mix64 (mix64 (mix64 golden64)))) t.mem :=
    memloopArr_const _ _ _ _ _ _ hm hm'
  rw [init64_true_eq, init64_true_eq, hr, hp, hc, ha, hb, hcc]

/-- Reseeding any 64-bit generator of the canonical pool size with `seed`
yields exactly the fresh generator built from `seed`. -/
theorem reseed64_eq_from_seed (s : Isaac64Rng) (seed : List Nat)
    (hr : s.rsl.length = 256) (hm : s.mem.length = 256) :
    s.reseed seed = Isaac64Rng.from_seed seed := by
  show Isaac64Rng.init true { s with
      rsl := (List.range s.rsl.length).map (fun j => seed.getD j 0),
      cnt := 0, a := 0, b := 0, c := 0 } =
    Isaac64Rng.init true { EMPTY_64 with
      rsl := (List.range EMPTY_64.rsl.length).map (fun j => seed.getD j 0),
      cnt := 0, a := 0, b := 0, c := 0 }
  have hE : EMPTY_64.rsl.length = 256 := by
    show (List.replicate 256 0).length = 256
    rw [List.length_replicate]
  rw [hr, hE]
  apply init64_true_indep
  · rfl
  · rfl
  · rfl
  · rfl
  · rfl
  · exact hm
  · show (List.replicate 256 0).length = 256
    rw [List.length_replicate]

theorem take_u32_chunk (x : Nat) (l : List Nat) (k : Nat) :
    (u32ToLeBytes x ++ l).take (k+4) = u32ToLeBytes x ++ l.take k := by
  have e : k + 4 = (u32ToLeBytes x).length + k := by simp [u32ToLeBytes]; omega
  rw [e, List.take_append]

/-- Characterisation of `IsaacRng::fill_bytes`: the little-endian bytes of
`ceil(L/4)` consecutive `next_u32` words, truncated to the buffer length,
with the state advanced by exactly those draws. -/
theorem fill_bytes_spec : ∀ (L : Nat) (s : IsaacRng),
    IsaacRng.fill_bytes L s = Except.ok
      ((((IsaacRng.nextWords ((L+3)/4) s).1.map u32ToLeBytes).flatten).take L,
       (IsaacRng.nextWords ((L+3)/4) s).2)
  | 0, _s => rfl
  | 1, _s => rfl
  | 2, _s => rfl
  | 3, _s => rfl
  | L+4, s => by
      have ih := fill_bytes_spec L (s.next_u32).2
      have e : (L + 4 + 3)/4 = (L+3)/4 + 1 := by omega
      rw [e]
      simp only [IsaacRng.fill_bytes, IsaacRng.nextWords, IsaacRng.next_u32] at ih ⊢
      rw [ih]
      simp only [List.map_cons, List.flatten_cons]
      rw [take_u32_chunk]

theorem take_u64_chunk (x : Nat) (l : List Nat) (k : Nat) :
    (u64ToLeBytes x ++ l).take (k+8) = u64ToLeBytes x ++ l.take k := by
  have e : k + 8 = (u64ToLeBytes x).length + k := by simp [u64ToLeBytes]; omega
  rw [e, List.take_append]

/-- Characterisation of the 64-bit byte-fill. -/
theorem fill_bytes64_spec : ∀ (L : Nat) (s : Isaac64Rng),
    Isaac64Rng.fill_bytes L s = Except.ok
      ((((Isaac64Rng.nextWords ((L+7)/8) s).1.map u64ToLeBytes).flatten).take L,
       (Isaac64Rng.nextWords ((L+7)/8) s).2)
  | 0, _s => rfl
  | 1, _s => rfl
  | 2, _s => rfl
  | 3, _s => rfl
  | 4, _s => rfl
  | 5, _s => rfl
  | 6, _s => rfl
  | 7, _s => rfl
  | L+8, s => by
      have ih := fill_bytes64_spec L (s.next_u64).2
      have e : (L + 8 + 7)/8 = (L+7)/8 + 1 := by omega
      rw [e]
      simp only [Isaac64Rng.fill_bytes, Isaac64Rng.nextWords, Isaac64Rng.next_u64] at ih ⊢
      rw [ih]
      simp only [List.map_cons, List.flatten_cons]
      rw [take_u64_chunk]

theorem isaac_cnt (s : IsaacRng) : s.isaac.cnt = 256 := rfl

theorem isaac64_cnt (s : Isaac64Rng) : s.isaac64.cnt = 256 := rfl

/-- The consumed-count after one `next_u32` call. -/
theorem next_u32_cnt (s : IsaacRng) :
    (s.next_u32).2.cnt = (if s.cnt = 0 then 256 else s.cnt) - 1 := by
  by_cases h : s.cnt = 0 <;> simp [IsaacRng.next_u32, h, isaac_cnt]

/-- The consumed-count after one `next_u64` call. -/
theorem next_u64_cnt (s : Isaac64Rng) :
    (s.next_u64).2.cnt = (if s.cnt = 0 then 256 else s.cnt) - 1 := by
  by_cases h : s.cnt = 0 <;> simp [Isaac64Rng.next_u64, h, isaac64_cnt]

theorem next_u32_cnt_lt (s : IsaacRng) (h : s.cnt ≤ 256) : (s.next_u32).2.cnt < 256 := by
  rw [next_u32_cnt]
  by_cases h0 : s.cnt = 0 <;> simp [h0] <;> omega

theorem next_u64_cnt_lt (s : Isaac64Rng) (h : s.cnt ≤ 256) : (s.next_u64).2.cnt < 256 := by
  rw [next_u64_cnt]
  by_cases h0 : s.cnt = 0 <;> simp [h0] <;> omega

theorem nextWords_cnt_le : ∀ (k : Nat) (s : IsaacRng), s.cnt ≤ 256 →
    (IsaacRng.nextWords k s).2.cnt ≤ 256
  | 0, _, h => h
  | k+1, s, h => by
      show (IsaacRng.nextWords k (s.next_u32).2).2.cnt ≤ 256
      exact nextWords_cnt_le k (s.next_u32).2 (Nat.le_of_lt (next_u32_cnt_lt s h))

theorem nextWords64_cnt_le : ∀ (k : Nat) (s : Isaac64Rng), s.cnt ≤ 256 →
    (Isaac64Rng.nextWords k s).2.cnt ≤ 256
  | 0, _, h => h
  | k+1, s, h => by
      show (Isaac64Rng.nextWords k (s.next_u64).2).2.cnt ≤ 256
      exact nextWords64_cnt_le k (s.next_u64).2 (Nat.le_of_lt (next_u64_cnt_lt s h))

/-- A seed array read through zero-default indexing is all that seeding
depends on. -/
theorem getD_take_256 (S : List Nat) (j : Nat) (h : j < 256) :
    (S.take 256).getD j 0 = S.getD j 0 := by
  simp [List.getD_eq_getElem?_getD, List.getElem?_take_of_lt h]

theorem getD_pad_zero (S : List Nat) (k j : Nat) :
    (S ++ List.replicate k 0).getD j 0 = S.getD j 0 := by
  rcases lt_or_ge j S.length with h | h
  · simp [List.getD_eq_getElem?_getD, List.getElem?_append_left h]
  · rcases Nat.lt_or_ge (j - S.length) k with h2 | h2
    · simp [List.getD_eq_getElem?_getD, List.getElem?_append_right h,
            List.getElem?_replicate, h2, List.getElem?_eq_none (by omega : S.length ≤ j)]
    · simp [List.getD_eq_getElem?_getD, List.getElem?_append_right h,
            List.getElem?_eq_none (by omega : S.length ≤ j),
            List.getElem?_eq_none
              (by rw [List.length_replicate]; omega : (List.replicate k 0).length ≤ j - S.length)]

/-- `from_seed` only depends on the first 256 zero-defaulted seed entries. -/
theorem from_seed_congr (S T : List Nat) (h : ∀ j, j < 256 → S.getD j 0 = T.getD j 0) :
    IsaacRng.from_seed S = IsaacRng.from_seed T := by
  have hE : EMPTY.rsl.length = 256 := by
    show (List.replicate 256 0).length = 256
    rw [List.length_replicate]
  have hmap : (List.range 256).map (fun j => S.getD j 0) =
      (List.range 256).map (fun j => T.getD j 0) :=
    List.map_congr_left (fun j hj => h j (List.mem_range.mp hj))
  rw [IsaacRng.from_seed, IsaacRng.from_seed, reseed_eq, reseed_eq, hE, hmap]

/-- `from_seed` of the 64-bit engine likewise. -/
theorem from_seed64_congr (S T : List Nat) (h : ∀ j, j < 256 → S.getD j 0 = T.getD j 0) :
    Isaac64Rng.from_seed S = Isaac64Rng.from_seed T := by
  have hE : EMPTY_64.rsl.length = 256 := by
    show (List.replicate 256 0).length = 256
    rw [List.length_replicate]
  have hmap : (List.range 256).map (fun j => S.getD j 0) =
      (List.range 256).map (fun j => T.getD j 0) :=
    List.map_congr_left (fun j hj => h j (List.mem_range.mp hj))
  rw [Isaac64Rng.from_seed, Isaac64Rng.from_seed, reseed64_eq, reseed64_eq, hE, hmap]

/-- C3: for every seed and every number `k` of prior draws, reseeding either
ISAAC engine with the seed it was built from restores exactly the fresh
generator state, so the subsequent output sequence coincides with that of a
fresh `from_seed` generator; the reseed is all-or-nothing. -/
theorem c3_reseed_full_reset (seed : List Nat) (k : Nat) :
    ((IsaacRng.nextWords k (IsaacRng.from_seed seed)).2.reseed seed =
        IsaacRng.from_seed seed ∧
      ∀ n, (IsaacRng.nextWords n
              ((IsaacRng.nextWords k (IsaacRng.from_seed seed)).2.reseed seed)).1 =
           (IsaacRng.nextWords n (IsaacRng.from_seed seed)).1) ∧
    ((Isaac64Rng.nextWords k (Isaac64Rng.from_seed seed)).2.reseed seed =
        Isaac64Rng.from_seed seed ∧
      ∀ n, (Isaac64Rng.nextWords n
              ((Isaac64Rng.nextWords k (Isaac64Rng.from_seed seed)).2.reseed seed)).1 =
           (Isaac64Rng.nextWords n (Isaac64Rng.from_seed seed)).1) := by
  have h32 : (IsaacRng.nextWords k (IsaacRng.from_seed seed)).2.reseed seed =
      IsaacRng.from_seed seed :=
    reseed_eq_from_seed _ seed
      (by rw [nextWords_rsl_length, from_seed_rsl_length])
      (by rw [nextWords_mem_length, from_seed_mem_length])
  have h64 : (Isaac64Rng.nextWords k (Isaac64Rng.from_seed seed)).2.reseed seed =
      Isaac64Rng.from_seed seed :=
    reseed64_eq_from_seed _ seed
      (by rw [nextWords64_rsl_length, from_seed64_rsl_length])
      (by rw [nextWords64_mem_length, from_seed64_mem_length])
  exact ⟨⟨h32, fun n => by rw [h32]⟩, ⟨h64, fun n => by rw [h64]⟩⟩

/-- C4: seeding with an array longer than the pool capacity is equivalent to
seeding with its first 256 entries, and seeding with a shorter array is
equivalent to seeding with its zero-padding to 256 entries, for the whole
output stream of either engine. -/
theorem c4_seed_truncation_padding :
    (∀ S : List Nat, 256 < S.length → ∀ n,
      IsaacRng.nextWords n (IsaacRng.from_seed S) =
      IsaacRng.nextWords n (IsaacRng.from_seed (S.take 256))) ∧
    (∀ S : List Nat, S.length < 256 → ∀ n,
      IsaacRng.nextWords n (IsaacRng.from_seed S) =
      IsaacRng.nextWords n (IsaacRng.from_seed (S ++ List.replicate (256 - S.length) 0))) ∧
    (∀ S : List Nat, 256 < S.length → ∀ n,
      Isaac64Rng.nextWords n (Isaac64Rng.from_seed S) =
      Isaac64Rng.nextWords n (Isaac64Rng.from_seed (S.take 256))) ∧
    (∀ S : List Nat, S.length < 256 → ∀ n,
      Isaac64Rng.nextWords n (Isaac64Rng.from_seed S) =
      Isaac64Rng.nextWords n (Isaac64Rng.from_seed (S ++ List.replicate (256 - S.length) 0))) := by
  refine ⟨fun S _ n => ?_, fun S _ n => ?_, fun S _ n => ?_, fun S _ n => ?_⟩
  · rw [from_seed_congr S (S.take 256) (fun j hj => (getD_take_256 S j hj).symm)]
  · rw [from_seed_congr S (S ++ List.replicate (256 - S.length) 0)
        (fun j _ => (getD_pad_zero S _ j).symm)]
  · rw [from_seed64_congr S (S.take 256) (fun j hj => (getD_take_256 S j hj).symm)]
  · rw [from_seed64_congr S (S ++ List.replicate (256 - S.length) 0)
        (fun j _ => (getD_pad_zero S _ j).symm)]

/-- Witness for C4 at concrete long and short seeds. -/
theorem c4_witness :
    (256 < (List.replicate 257 1).length ∧
      ∀ n, IsaacRng.nextWords n (IsaacRng.from_seed (List.replicate 257 1)) =
           IsaacRng.nextWords n (IsaacRng.from_seed ((List.replicate 257 1).take 256))) ∧
    ((List.replicate 5 7).length < 256 ∧
      ∀ n, IsaacRng.nextWords n (IsaacRng.from_seed (List.replicate 5 7)) =
           IsaacRng.nextWords n (IsaacRng.from_seed
             (List.replicate 5 7 ++ List.replicate (256 - (List.replicate 5 7).length) 0))) ∧
    (256 < (List.replicate 257 1).length ∧
      ∀ n, Isaac64Rng.nextWords n (Isaac64Rng.from_seed (List.replicate 257 1)) =
           Isaac64Rng.nextWords n (Isaac64Rng.from_seed ((List.replicate 257 1).take 256))) ∧
    ((List.replicate 5 7).length < 256 ∧
      ∀ n, Isaac64Rng.nextWords n (Isaac64Rng.from_seed (List.replicate 5 7)) =
           Isaac64Rng.nextWords n (Isaac64Rng.from_seed
             (List.replicate 5 7 ++ List.replicate (256 - (List.replicate 5 7).length) 0))) :=
  ⟨⟨by rw [List.length_replicate]; omega,
    c4_seed_truncation_padding.1 (List.replicate 257 1) (by rw [List.length_replicate]; omega)⟩,
   ⟨by rw [List.length_replicate]; omega,
    c4_seed_truncation_padding.2.1 (List.replicate 5 7) (by rw [List.length_replicate]; omega)⟩,
   ⟨by rw [List.length_replicate]; omega,
    c4_seed_truncation_padding.2.2.1 (List.replicate 257 1) (by rw [List.length_replicate]; omega)⟩,
   ⟨by rw [List.length_replicate]; omega,
    c4_seed_truncation_padding.2.2.2 (List.replicate 5 7) (by rw [List.length_replicate]; omega)⟩⟩

/-- C5: the generation path of either ISAAC engine never reports an error:
`next_u32`, `next_u64`, `fill_bytes` (for every buffer length) and `try_fill`
always return a successful result. -/
theorem c5_generation_never_errors :
    (∀ s : IsaacRng, ∃ x, (s.next_u32).1 = Except.ok x) ∧
    (∀ s : IsaacRng, ∃ x, (s.next_u64).1 = Except.ok x) ∧
    (∀ (L : Nat) (s : IsaacRng), ∃ p, IsaacRng.fill_bytes L s = Except.ok p) ∧
    (∀ (L : Nat) (s : IsaacRng), ∃ p, IsaacRng.try_fill L s = Except.ok p) ∧
    (∀ s : Isaac64Rng, ∃ x, (s.next_u64).1 = Except.ok x) ∧
    (∀ s : Isaac64Rng, ∃ x, (s.next_u32).1 = Except.ok x) ∧
    (∀ (L : Nat) (s : Isaac64Rng), ∃ p, Isaac64Rng.fill_bytes L s = Except.ok p) ∧
    (∀ (L : Nat) (s : Isaac64Rng), ∃ p, Isaac64Rng.try_fill L s = Except.ok p) :=
  ⟨fun _ => ⟨_, rfl⟩, fun _ => ⟨_, rfl⟩,
   fun L s => ⟨_, fill_bytes_spec L s⟩, fun L s => ⟨_, fill_bytes_spec L s⟩,
   fun _ => ⟨_, rfl⟩, fun _ => ⟨_, rfl⟩,
   fun L s => ⟨_, fill_bytes64_spec L s⟩, fun L s => ⟨_, fill_bytes64_spec L s⟩⟩

/-- C6: for either engine, the consumed-count stays in `[0, 256]` under every
operation; `next_u32`/`next_u64` refills exactly when the count is zero, the
decremented count is strictly below 256, and the modulo in the buffer access
does not change the selected entry. -/
theorem c6_cnt_invariant :
    (∀ s : IsaacRng, s.cnt ≤ 256 →
      (s.next_u32).2.cnt = (if s.cnt = 0 then 256 else s.cnt) - 1 ∧
      (s.next_u32).2.cnt < 256 ∧
      (s.next_u32).2.cnt % 256 = (s.next_u32).2.cnt ∧
      (s.next_u32).1 = Except.ok ((s.next_u32).2.rsl.getD ((s.next_u32).2.cnt) 0)) ∧
    (∀ s : IsaacRng, s.isaac.cnt = 256) ∧
    (∀ (s : IsaacRng) (seed : List Nat), (s.reseed seed).cnt = 256) ∧
    (∀ (k : Nat) (s : IsaacRng), s.cnt ≤ 256 → (IsaacRng.nextWords k s).2.cnt ≤ 256) ∧
    (∀ s : Isaac64Rng, s.cnt ≤ 256 →
      (s.next_u64).2.cnt = (if s.cnt = 0 then 256 else s.cnt) - 1 ∧
      (s.next_u64).2.cnt < 256 ∧
      (s.next_u64).2.cnt % 256 = (s.next_u64).2.cnt ∧
      (s.next_u64).1 = Except.ok ((s.next_u64).2.rsl.getD ((s.next_u64).2.cnt) 0)) ∧
    (∀ s : Isaac64Rng, s.isaac64.cnt = 256) ∧
    (∀ (s : Isaac64Rng) (seed : List Nat), (s.reseed seed).cnt = 256) ∧
    (∀ (k : Nat) (s : Isaac64Rng), s.cnt ≤ 256 → (Isaac64Rng.nextWords k s).2.cnt ≤ 256) := by
  refine ⟨fun s h => ?_, fun s => isaac_cnt s, fun s seed => ?_, fun k s h => nextWords_cnt_le k s h,
          fun s h => ?_, fun s => isaac64_cnt s, fun s seed => ?_, fun k s h => nextWords64_cnt_le k s h⟩
  · have hlt : (s.next_u32).2.cnt < 256 := next_u32_cnt_lt s h
    refine ⟨next_u32_cnt s, hlt, Nat.mod_eq_of_lt hlt, ?_⟩
    show Except.ok ((s.next_u32).2.rsl.getD ((s.next_u32).2.cnt % 256) 0) =
      Except.ok ((s.next_u32).2.rsl.getD ((s.next_u32).2.cnt) 0)
    rw [Nat.mod_eq_of_lt hlt]
  · rw [reseed_eq, init_true_eq, isaac_cnt]
  · have hlt : (s.next_u64).2.cnt < 256 := next_u64_cnt_lt s h
    refine ⟨next_u64_cnt s, hlt, Nat.mod_eq_of_lt hlt, ?_⟩
    show Except.ok ((s.next_u64).2.rsl.getD ((s.next_u64).2.cnt % 256) 0) =
      Except.ok ((s.next_u64).2.rsl.getD ((s.next_u64).2.cnt) 0)
    rw [Nat.mod_eq_of_lt hlt]
  · rw [reseed64_eq, init64_true_eq, isaac64_cnt]

/-- Witness for C6 at a concrete partially consumed state. -/
theorem c6_witness :
    (probe32.cnt ≤ 256 ∧
      ((probe32.next_u32).2.cnt = (if probe32.cnt = 0 then 256 else probe32.cnt) - 1 ∧
       (probe32.next_u32).2.cnt < 256 ∧
       (probe32.next_u32).2.cnt % 256 = (probe32.next_u32).2.cnt ∧
       (probe32.next_u32).1 =
         Except.ok ((probe32.next_u32).2.rsl.getD ((probe32.next_u32).2.cnt) 0))) ∧
    ((IsaacRng.nextWords 3 probe32).2.cnt ≤ 256) ∧
    (probe64.cnt ≤ 256 ∧
      ((probe64.next_u64).2.cnt = (if probe64.cnt = 0 then 256 else probe64.cnt) - 1 ∧
       (probe64.next_u64).2.cnt < 256 ∧
       (probe64.next_u64).2.cnt % 256 = (probe64.next_u64).2.cnt ∧
       (probe64.next_u64).1 =
         Except.ok ((probe64.next_u64).2.rsl.getD ((probe64.next_u64).2.cnt) 0))) ∧
    ((Isaac64Rng.nextWords 3 probe64).2.cnt ≤ 256) :=
  ⟨⟨by decide, c6_cnt_invariant.1 probe32 (by decide)⟩,
   c6_cnt_invariant.2.2.2.1 3 probe32 (by decide),
   ⟨by decide, c6_cnt_invariant.2.2.2.2.1 probe64 (by decide)⟩,
   c6_cnt_invariant.2.2.2.2.2.2.2 3 probe64 (by decide)⟩

/-- C7: `fill_bytes` of the 32-bit engine writes the little-endian bytes of
`ceil(L/4)` consecutive `next_u32` words drawn from the same state, truncated
to the buffer length, so a partial trailing chunk keeps only the low-order
bytes of one extra word. -/
theorem c7_fill_bytes_words (L : Nat) (s : IsaacRng) :
    IsaacRng.fill_bytes L s = Except.ok
      ((((IsaacRng.nextWords ((L+3)/4) s).1.map u32ToLeBytes).flatten).take L,
       (IsaacRng.nextWords ((L+3)/4) s).2) :=
  fill_bytes_spec L s

/-- C8: `from_rng` requests exactly the pool capacity in bytes (1024 for the
32-bit engine, 2048 for the 64-bit engine) from the upstream source, depends
on the source only through that request, runs the seeded initialisation on
the drawn bytes, and propagates an upstream error unchanged. -/
theorem c8_from_rng_exact (fe fo fo2 ge go go2 : Nat → Except CryptoError (List Nat))
    (e e64 : CryptoError) (bytes bytes64 : List Nat)
    (he : fe 1024 = Except.error e)
    (ho : fo 1024 = Except.ok bytes) (ho2 : fo2 1024 = Except.ok bytes)
    (hge : ge 2048 = Except.error e64)
    (hgo : go 2048 = Except.ok bytes64) (hgo2 : go2 2048 = Except.ok bytes64) :
    IsaacRng.from_rng fe = Except.error e ∧
    IsaacRng.from_rng fo = IsaacRng.from_rng fo2 ∧
    IsaacRng.from_rng fo = Except.ok (IsaacRng.init true
      { EMPTY with
          rsl := (List.range 256).map (fun j => leWord32 bytes j),
          cnt := 0, a := 0, b := 0, c := 0 }) ∧
    Isaac64Rng.from_rng ge = Except.error e64 ∧
    Isaac64Rng.from_rng go = Isaac64Rng.from_rng go2 ∧
    Isaac64Rng.from_rng go = Except.ok (Isaac64Rng.init true
      { EMPTY_64 with
          rsl := (List.range 256).map (fun j => leWord64 bytes64 j),
          cnt := 0, a := 0, b := 0, c := 0 }) := by
  refine ⟨?_, ?_, ?_, ?_, ?_, ?_⟩
  · simp only [IsaacRng.from_rng, he]
  · simp only [IsaacRng.from_rng, ho, ho2]
  · simp only [IsaacRng.from_rng, ho]
  · simp only [Isaac64Rng.from_rng, hge]
  · simp only [Isaac64Rng.from_rng, hgo, hgo2]
  · simp only [Isaac64Rng.from_rng, hgo]

/-- Witness for C8 with a failing source and an all-zero source. -/
theorem c8_witness :
    IsaacRng.from_rng errFill = Except.error CryptoError.mk ∧
    IsaacRng.from_rng zeroFill = IsaacRng.from_rng zeroFill ∧
    IsaacRng.from_rng zeroFill = Except.ok (IsaacRng.init true
      { EMPTY with
          rsl := (List.range 256).map (fun j => leWord32 (List.replicate 1024 0) j),
          cnt := 0, a := 0, b := 0, c := 0 }) ∧
    Isaac64Rng.from_rng errFill = Except.error CryptoError.mk ∧
    Isaac64Rng.from_rng zeroFill64 = Isaac64Rng.from_rng zeroFill64 ∧
    Isaac64Rng.from_rng zeroFill64 = Except.ok (Isaac64Rng.init true
      { EMPTY_64 with
          rsl := (List.range 256).map (fun j => leWord64 (List.replicate 2048 0) j),
          cnt := 0, a := 0, b := 0, c := 0 }) :=
  c8_from_rng_exact errFill zeroFill zeroFill errFill zeroFill64 zeroFill64
    CryptoError.mk CryptoError.mk (List.replicate 1024 0) (List.replicate 2048 0)
    rfl rfl rfl rfl rfl rfl

/-- C9: `should_retry` holds exactly for `Transient` and `NotReady`,
`should_wait` exactly for `NotReady`; `description` is a fixed non-empty
string on each public kind and never returns normally on the hidden
placeholder kind. -/
theorem c9_error_kind_taxonomy :
    (∀ k : ErrorKind, k.should_retry = true ↔
      (k = ErrorKind.Transient ∨ k = ErrorKind.NotReady)) ∧
    (∀ k : ErrorKind, k.should_wait = true ↔ k = ErrorKind.NotReady) ∧
    (ErrorKind.Unavailable.description = some "permanent failure or unavailable" ∧
      "permanent failure or unavailable" ≠ "") ∧
    (ErrorKind.Transient.description = some "transient failure" ∧ "transient failure" ≠ "") ∧
    (ErrorKind.NotReady.description = some "not ready yet" ∧ "not ready yet" ≠ "") ∧
    (ErrorKind.Other.description = some "uncategorised" ∧ "uncategorised" ≠ "") ∧
    ErrorKind.Nonexhaustive.description = none :=
  ⟨fun k => by cases k <;> decide, fun k => by cases k <;> decide,
   ⟨rfl, by decide⟩, ⟨rfl, by decide⟩, ⟨rfl, by decide⟩, ⟨rfl, by decide⟩, rfl⟩

/-- C10: with a nonzero consumed-count, a single `next_u32` call on the
32-bit engine only decrements `cnt` and returns `rsl[cnt-1]`; the pool, the
output buffer and the accumulators are untouched. -/
theorem c10_next_u32_frame (s : IsaacRng) (h0 : 0 < s.cnt) (h1 : s.cnt ≤ 256) :
    s.next_u32 = (Except.ok (s.rsl.getD (s.cnt - 1) 0), { s with cnt := s.cnt - 1 }) := by
  have hne : s.cnt ≠ 0 := by omega
  have hm : (s.cnt - 1) % 256 = s.cnt - 1 := Nat.mod_eq_of_lt (by omega)
  simp [IsaacRng.next_u32, hne, hm]

/-- Witness for C10 at a concrete partially consumed state. -/
theorem c10_witness :
    0 < probe32.cnt ∧ probe32.cnt ≤ 256 ∧
    probe32.next_u32 =
      (Except.ok (probe32.rsl.getD (probe32.cnt - 1) 0), { probe32 with cnt := probe32.cnt - 1 }) :=
  ⟨by decide, by decide, c10_next_u32_frame probe32 (by decide) (by decide)⟩

set_option maxRecDepth 1000000

set_option maxHeartbeats 4000000 in
theorem c1_step_vars : mix32 (mix32 (mix32 (mix32 golden32))) = c1Vars0 := by decide

set_option maxHeartbeats 4000000 in
theorem c1_step_memloop1 :
    memloopArr add32 mix32 seedPad 32 0 c1Vars0 (List.replicate 256 0) = (c1VarsA, c1MemA) := by
  decide

set_option maxHeartbeats 4000000 in
theorem c1_step_memloop2 :
    memloopSelf add32 mix32 32 0 c1VarsA c1MemA = (c1VarsB, c1MemB) := by
  decide

set_option maxHeartbeats 4000000 in
theorem c1_step_isaac :
    IsaacRng.isaac ⟨0, seedPad, c1MemB, 0, 0, 0⟩ = c1Final := by
  decide

set_option maxHeartbeats 4000000 in
theorem c1_from_seed_eq :
    IsaacRng.from_seed [1, 23, 456, 7890, 12345] = c1Final := by
  rw [IsaacRng.from_seed, reseed_eq]
  have h1 : ({ EMPTY with
      rsl := (List.range EMPTY.rsl.length).map
        (fun j => ([1, 23, 456, 7890, 12345] : List Nat).getD j 0),
      cnt := 0, a := 0, b := 0, c := 0 } : IsaacRng) =
      ⟨0, seedPad, List.replicate 256 0, 0, 0, 0⟩ := by decide
  rw [h1, init_true_eq]
  dsimp only
  rw [c1_step_vars, c1_step_memloop1]
  dsimp only
  rw [c1_step_memloop2]
  dsimp only
  rw [c1_step_isaac]

set_option maxHeartbeats 4000000 in
/-- C1: the 32-bit ISAAC engine seeded via `from_seed` with
`[1, 23, 456, 7890, 12345]` produces exactly the published regression vector
as its first ten `next_u32` outputs. -/
theorem c1_regression_vector_32 :
    (IsaacRng.nextWords 10 (IsaacRng.from_seed [1, 23, 456, 7890, 12345])).1 =
    [2558573138, 873787463, 263499565, 2103644246, 3595684709,
     4203127393, 264982119, 2765226902, 2737944514, 3900253796] := by
  rw [c1_from_seed_eq]
  decide

set_option maxHeartbeats 4000000 in
theorem c2_step_vars : mix64 (mix64 (mix64 (mix64 golden64))) = c2Vars0 := by decide

set_option maxHeartbeats 4000000 in
theorem c2_step_memloop1 :
    memloopArr add64 mix64 seedPad 32 0 c2Vars0 (List.replicate 256 0) = (c2VarsA, c2MemA) := by
  decide

set_option maxHeartbeats 4000000 in
theorem c2_step_memloop2 :
    memloopSelf add64 mix64 32 0 c2VarsA c2MemA = (c2VarsB, c2MemB) := by
  decide

set_option maxHeartbeats 4000000 in
theorem c2_step_isaac :
    Isaac64Rng.isaac64 ⟨0, seedPad, c2MemB, 0, 0, 0⟩ = c2Final := by
  decide

set_option maxHeartbeats 4000000 in
theorem c2_from_seed_eq :
    Isaac64Rng.from_seed [1, 23, 456, 7890, 12345] = c2Final := by
  rw [Isaac64Rng.from_seed, reseed64_eq]
  have h1 : ({ EMPTY_64 with
      rsl := (List.range EMPTY_64.rsl.length).map
        (fun j => ([1, 23, 456, 7890, 12345] : List Nat).getD j 0),
      cnt := 0, a := 0, b := 0, c := 0 } : Isaac64Rng) =
      ⟨0, seedPad, List.replicate 256 0, 0, 0, 0⟩ := by decide
  rw [h1, init64_true_eq]
  dsimp only
  rw [c2_step_vars, c2_step_memloop1]
  dsimp only
  rw [c2_step_memloop2]
  dsimp only
  rw [c2_step_isaac]

set_option maxHeartbeats 4000000 in
/-- C2: the 64-bit ISAAC engine seeded via `from_seed` with
`[1, 23, 456, 7890, 12345]` produces exactly the published regression vector
as its first ten `next_u64` outputs. -/
theorem c2_regression_vector_64 :
    (Isaac64Rng.nextWords 10 (Isaac64Rng.from_seed [1, 23, 456, 7890, 12345])).1 =
    [547121783600835980, 14377643087320773276, 17351601304698403469,
     1238879483818134882, 11952566807690396487, 13970131091560099343,
     4469761996653280935, 15552757044682284409, 6860251611068737823,
     13722198873481261842] := by
  rw [c2_from_seed_eq]
  decide

end Rand
